import Mathlib

/-!
Verification development for the Hawaiʻi environment-visualization front end
(Next.js + Plotly map components).  The components fetch static GeoJSON
datasets, annotate each feature with a fill color and a hover string via
lookup tables, compute coordinate means for map centering, and pass togglable
layer/trace configurations to the Plotly mapping widget.

The definitions below are a shallow embedding of the TypeScript source:

* `JValue`, `Props` model the free-form JSON property bags carried by
  GeoJSON features (an association list; lookup finds the first binding,
  assignment replaces the first binding or appends, as for a JS object
  parsed from JSON, whose keys are unique).
* `Geometry`, `Feature`, `FeatureCollection` model the GeoJSON data;
  a `Coordinate` is a `[lon, lat]` pair (the code reads `c[0]` as longitude
  and `c[1]` as latitude).  JS numbers are modelled as rationals.
* the `annotate…` functions embed the per-dataset annotation loops of
  `Merged.tsx` (`CombinedMap.fetchData` and `CombinedEverythingMap.fetchAll`).
* `buildGeoidTable` embeds the urban-areas palette assignment.
* the `…Fetch`/`…Run` functions embed each component variant's fetch
  control flow (response not ok / thrown error / success).
* `cemMapboxLayers` / `cemTraces` embed the layer and trace configuration
  built by the `CombinedEverythingMap` render effect.
* the center computations embed the map-centering arithmetic.
-/

/-- JSON scalar values as they occur in the datasets' property bags. -/
inductive JValue where
  | str (s : String)
  | num (q : ℚ)
  | null
deriving DecidableEq, Repr

/-- Property bag of a GeoJSON feature: an association list of string keys to
JSON values.  JSON objects have unique keys; lookup returns the first binding. -/
def Props : Type := List (String × JValue)

instance : DecidableEq Props := inferInstanceAs (DecidableEq (List (String × JValue)))

instance : Membership (String × JValue) Props := inferInstanceAs (Membership _ (List _))

instance : Repr Props := inferInstanceAs (Repr (List (String × JValue)))

/-- Read a property: `some v` when the key is present (even bound to JSON
null), `none` when the key is absent (JS `undefined`). -/
def getProp (p : Props) (k : String) : Option JValue :=
  (List.find? (fun kv => kv.1 = k) p).map (fun kv => kv.2)

/-- Read a property the way the JS nullish operators see it: JSON `null` and
an absent key both read as `none` (both trigger `??` and `?.`). -/
def getCoalesce (p : Props) (k : String) : Option JValue :=
  match getProp p k with
  | some JValue.null => none
  | some v => some v
  | none => none

/-- Assign a property, as JS object assignment does: replace the value of an
existing key in place, or append a new binding at the end. -/
def setProp : Props → String → JValue → Props
  | [], k, v => [(k, v)]
  | (k0, v0) :: rest, k, v =>
    if k0 = k then (k, v) :: rest else (k0, v0) :: setProp rest k v

/-- Coercion of a JSON value to a string, as a JS template literal performs it
(`${v}`) and as property-key coercion performs it. -/
def jsToString : JValue → String
  | JValue.str s => s
  | JValue.num q => toString q
  | JValue.null => "null"

/-- Stand-in for JS `Number.prototype.toLocaleString`; its exact output is
locale-dependent and no claim depends on the digits rendered, only on which
branch produced the text. -/
def jsLocaleString (q : ℚ) : String := toString q

/-- Embedding of the pattern `p.key?.toLocaleString() ?? 'N/A'`: optional
chaining gives `undefined` on an absent key or a null value, and `??` then
substitutes the fallback string. -/
def locOrNA (v : Option JValue) : String :=
  match v with
  | some (JValue.num q) => jsLocaleString q
  | some (JValue.str s) => s
  | some JValue.null => "N/A"
  | none => "N/A"

/-- Lookup in a static string-to-string table (a JS record literal used as a
dictionary): first binding for the key, `none` on a miss. -/
def lookupTable (t : List (String × String)) (k : String) : Option String :=
  (List.find? (fun kv => kv.1 = k) t).map (fun kv => kv.2)

/-- Truthiness test the urban palette pass applies to a table read:
`!geoidToColor[id]` is true when the key is absent or its value is the empty
string (the only falsy string). -/
def jsFalsyStr : Option String → Bool
  | none => true
  | some s => s = ""

/-- Longitude/latitude pair; GeoJSON stores `[lon, lat]` and the code reads
`c[0]` for longitude, `c[1]` for latitude. -/
structure Coordinate where
  lon : ℚ
  lat : ℚ
deriving DecidableEq, Repr

/-- GeoJSON geometries handled by the components. -/
inductive Geometry where
  | polygon (rings : List (List Coordinate))
  | multiPolygon (polys : List (List (List Coordinate)))
  | lineString (pts : List Coordinate)
  | multiLineString (lines : List (List Coordinate))
  | point (pt : Coordinate)
deriving DecidableEq, Repr

/-- GeoJSON feature: a geometry and a free-form property bag. -/
structure Feature where
  geometry : Geometry
  properties : Props
deriving DecidableEq, Repr

/-- GeoJSON feature collection. -/
structure FeatureCollection where
  features : List Feature
deriving DecidableEq, Repr

/-- Plants density-class color table (`plantColors` in `Merged.tsx`). -/
def plantColors : List (String × String) :=
  [("O", "#d9d9d9"), ("L", "#a6cee3"), ("M", "#1f78b4"),
   ("H", "#b2df8a"), ("VH", "#33a02c"), ("OLO", "#fb9a99")]

/-- Habitat island color table (`habitatColors` in `Merged.tsx`). -/
def habitatColors : List (String × String) :=
  [("Hawaii", "#1f78b4"), ("Oahu", "#33a02c"), ("Maui", "#e31a1c"),
   ("Kauai", "#ff7f00"), ("Molokai", "#6a3d9a"), ("Lanai", "#b15928")]

/-- Density value the plants loop resolves: `props.density ?? 'O'`. -/
def plantDensity (p : Props) : JValue :=
  match getCoalesce p "density" with
  | some v => v
  | none => JValue.str "O"

/-- Fill color of the plants annotation (`plants.features.forEach` in
`CombinedMap.fetchData` and `CombinedEverythingMap.fetchAll`):
`fillColor = plantColors[density] ?? '#cccccc'`. -/
def plantFill (p : Props) : String :=
  match lookupTable plantColors (jsToString (plantDensity p)) with
  | some c => c
  | none => "#cccccc"

/-- Hover string of the plants annotation. -/
def plantHover (p : Props) : String :=
  "Density: " ++ jsToString (plantDensity p) ++
  "\nArea: " ++ locOrNA (getCoalesce p "st_areashape") ++
  "\nPerimeter: " ++ locOrNA (getCoalesce p "st_perimetershape")

/-- Assignments performed by the plants annotation loop. -/
def annotatePlants (p : Props) : Props :=
  setProp (setProp p "fillColor" (JValue.str (plantFill p)))
    "hoverText" (JValue.str (plantHover p))

/-- Island value the habitat loop resolves: `p.island ?? ''`. -/
def habitatIsland (p : Props) : JValue :=
  match getCoalesce p "island" with
  | some v => v
  | none => JValue.str ""

/-- Fill color of the habitat annotation (`habitat.features.forEach` in
`CombinedEverythingMap.fetchAll` and `HabitatMap.render`):
`fillColor = habitatColors[isl] ?? '#a6cee3'`. -/
def habitatFill (p : Props) : String :=
  match lookupTable habitatColors (jsToString (habitatIsland p)) with
  | some c => c
  | none => "#a6cee3"

/-- Hover string of the habitat annotation. -/
def habitatHover (p : Props) : String :=
  "Island: " ++ jsToString (habitatIsland p) ++
  "\nCritical Habitat: " ++ locOrNA (getCoalesce p "critical_h") ++
  "\nAcres: " ++ locOrNA (getCoalesce p "acres") ++
  "\nArea: " ++ locOrNA (getCoalesce p "st_areashape") ++
  "\nPerimeter: " ++ locOrNA (getCoalesce p "st_perimetershape")

/-- Assignments performed by the habitat annotation loop. -/
def annotateHabitat (p : Props) : Props :=
  setProp (setProp p "fillColor" (JValue.str (habitatFill p)))
    "hoverText" (JValue.str (habitatHover p))

/-- Hover string of the hotels annotation (`hotels.features.forEach`); a
hover string is the only field the hotels loop derives. -/
def hotelHover (p : Props) : String :=
  let name :=
    match getCoalesce p "hotel_name" with
    | some v => v
    | none =>
      match getCoalesce p "name" with
      | some v => v
      | none =>
        match getCoalesce p "NAME" with
        | some v => v
        | none => JValue.str "Hotel"
  "Hotel: " ++ jsToString name

/-- Assignment performed by the hotels annotation loop. -/
def annotateHotel (p : Props) : Props :=
  setProp p "hoverText" (JValue.str (hotelHover p))

/-- Land-use/land-cover label table (`lulcLabels` in `Merged.tsx`). -/
def lulcLabels : List (String × String) :=
  [("11", "Residential"), ("12", "Commercial and Services"), ("13", "Industrial"),
   ("14", "Transportation, Communications and Utilities"),
   ("15", "Industrial and Commercial Complexes"),
   ("16", "Mixed Urban or Built-up Land"), ("17", "Other Urban or Built-up Land"),
   ("21", "Cropland and Pasture"), ("22", "Orchards, Groves, Vineyards, Nurseries"),
   ("23", "Confined Feeding Operations"), ("24", "Other Agricultural Land"),
   ("31", "Herbaceous Rangeland"), ("32", "Shrub and Brush Rangeland"),
   ("33", "Mixed Rangeland"), ("41", "Deciduous Forest Land"),
   ("42", "Evergreen Forest Land"), ("43", "Mixed Forest Land"),
   ("51", "Streams and Canals"), ("52", "Lakes"), ("53", "Reservoirs"),
   ("54", "Bays and Estuaries"), ("61", "Forested Wetland"),
   ("62", "Nonforested Wetland"), ("71", "Dry Salt Flats"), ("72", "Beaches"),
   ("73", "Sandy Areas Other than Beaches"), ("74", "Bare Exposed Rock"),
   ("75", "Strip Mines, Quarries, and Gravel Pits"), ("76", "Transitional Areas"),
   ("77", "Mixed Barren Land"), ("81", "Shrub and Brush Tundra"),
   ("82", "Herbaceous Tundra"), ("83", "Bare Ground"), ("84", "Wet Tundra"),
   ("85", "Mixed Tundra"), ("91", "Perennial Snowfields or Ice"), ("92", "Glaciers")]

/-- Land-use/land-cover color table (`lulcColors` in `Merged.tsx`). -/
def lulcColors : List (String × String) :=
  [("11", "#e31a1c"), ("12", "#fb9a99"), ("13", "#984ea3"), ("14", "#a6cee3"),
   ("15", "#b15928"), ("16", "#cab2d6"), ("17", "#ffff99"),
   ("21", "#fdbf6f"), ("22", "#ff7f00"), ("23", "#b2df8a"), ("24", "#33a02c"),
   ("31", "#ffffb3"), ("32", "#bebada"), ("33", "#fccde5"),
   ("41", "#238b45"), ("42", "#006d2c"), ("43", "#74c476"),
   ("51", "#08519c"), ("52", "#3182bd"), ("53", "#6baed6"), ("54", "#9ecae1"),
   ("61", "#2ca25f"), ("62", "#99d8c9"),
   ("71", "#f0f0f0"), ("72", "#fdd0a2"), ("73", "#bdbdbd"), ("74", "#969696"),
   ("75", "#737373"), ("76", "#525252"), ("77", "#252525"),
   ("81", "#efedf5"), ("82", "#dadaeb"), ("83", "#bcbddc"), ("84", "#9e9ac8"),
   ("85", "#807dba"), ("91", "#ffffff"), ("92", "#f7fbff")]

/-- Land-cover code the LULC loop resolves: `String(p.landcover ?? '')`. -/
def lulcCode (p : Props) : String :=
  match getCoalesce p "landcover" with
  | some v => jsToString v
  | none => ""

/-- Fill color of the LULC annotation (`LULC.features.forEach` in
`CombinedEverythingMap.fetchAll`):
`fillColor = lulcColors[landcover] ?? '#cccccc'`. -/
def lulcFill (p : Props) : String :=
  match lookupTable lulcColors (lulcCode p) with
  | some c => c
  | none => "#cccccc"

/-- Hover string of the LULC annotation, using the label table with its
"Unknown" fallback. -/
def lulcHover (p : Props) : String :=
  let label :=
    match lookupTable lulcLabels (lulcCode p) with
    | some l => l
    | none => "Unknown"
  "Land Cover Code: " ++ lulcCode p ++ "<br>" ++ label ++
  "<br>Area: " ++ locOrNA (getCoalesce p "st_areashape") ++ " sq units"

/-- Assignments performed by the LULC annotation loop. -/
def annotateLULC (p : Props) : Props :=
  setProp (setProp p "fillColor" (JValue.str (lulcFill p)))
    "hoverText" (JValue.str (lulcHover p))

/-- Hover string of the state-parks annotation
(`stateParks.features.forEach`). -/
def stateParkHover (p : Props) : String :=
  "Park: " ++ locOrNA (getCoalesce p "name") ++
  "<br>Type: " ++ locOrNA (getCoalesce p "type_defin") ++
  "<br>Island: " ++ locOrNA (getCoalesce p "island") ++
  "<br>Acres: " ++ locOrNA (getCoalesce p "gis_acre")

/-- Assignments performed by the state-parks annotation loop. -/
def annotateStatePark (p : Props) : Props :=
  setProp (setProp p "fillColor" (JValue.str "#33a02c"))
    "hoverText" (JValue.str (stateParkHover p))

/-- Lift a per-property annotation over a feature; the geometry is untouched
(the loops only write `f.properties`). -/
def annotateFeature (a : Props → Props) (f : Feature) : Feature :=
  { f with properties := a f.properties }

/-- Lift a per-property annotation over a whole collection, as
`features.forEach` does: each feature is rewritten in place, so the result is
the element-wise image in the original order. -/
def annotateFC (a : Props → Props) (fc : FeatureCollection) : FeatureCollection :=
  ⟨fc.features.map (annotateFeature a)⟩

/-- Urban-areas fill palette (`urbanPalette` in `CombinedEverythingMap.fetchAll`
and `palette` in the urban/road page variant): ten fixed rgba colors. -/
def urbanPalette : List String :=
  ["rgba(31,119,180,0.45)", "rgba(255,127,14,0.45)", "rgba(44,160,44,0.45)",
   "rgba(214,39,40,0.45)", "rgba(148,103,189,0.45)", "rgba(140,86,75,0.45)",
   "rgba(227,119,194,0.45)", "rgba(127,127,127,0.45)", "rgba(188,189,34,0.45)",
   "rgba(23,190,207,0.45)"]

/-- Resolved GEOID key of an urban feature when one is present:
the value of `GEOID20 ?? geoid20`, coerced to a string as the record key
coercion does; `none` when both are absent or null. -/
def urbanGeoid (p : Props) : Option String :=
  match getCoalesce p "GEOID20" with
  | some v => some (jsToString v)
  | none =>
    match getCoalesce p "geoid20" with
    | some v => some (jsToString v)
    | none => none

/-- Id the urban loops use for a feature:
`f.properties.GEOID20 ?? f.properties.geoid20 ?? gid-<paletteIndex>` where
`paletteIndex` is the mutable counter current at that point. -/
def urbanId (p : Props) (idx : ℕ) : String :=
  match urbanGeoid p with
  | some g => g
  | none => "gid-" ++ toString idx

/-- State of the first urban pass: the `geoidToColor` record built so far and
the mutable `paletteIndex` counter. -/
structure GeoidAcc where
  table : List (String × String)
  idx : ℕ
deriving DecidableEq, Repr

/-- Body of the first urban pass for one already-resolved id:
`if (!geoidToColor[id]) { geoidToColor[id] = urbanPalette[paletteIndex % urbanPalette.length]; paletteIndex += 1; }`. -/
def geoidStepId (acc : GeoidAcc) (id : String) : GeoidAcc :=
  if jsFalsyStr (lookupTable acc.table id) then
    ⟨acc.table ++ [(id, urbanPalette.getD (acc.idx % urbanPalette.length) "")],
     acc.idx + 1⟩
  else acc

/-- Body of the first urban pass for one feature property bag. -/
def geoidStep (acc : GeoidAcc) (p : Props) : GeoidAcc :=
  geoidStepId acc (urbanId p acc.idx)

/-- First urban pass over the whole feature list, starting from an empty
record and `paletteIndex = 0`. -/
def buildGeoidTable (ps : List Props) : GeoidAcc :=
  ps.foldl geoidStep ⟨[], 0⟩

/-- Fill color the second urban pass assigns:
`geoidToColor[id] ?? urbanPalette[0]`, where `id` is re-resolved against the
final `paletteIndex`. -/
def urbanFillColor (acc : GeoidAcc) (p : Props) : String :=
  match lookupTable acc.table (urbanId p acc.idx) with
  | some c => c
  | none => urbanPalette.getD 0 ""

/-- Chain of `??` over several property keys, as in
`p.NAMELSAD20 ?? p.namelsad20 ?? p.NAME20 ?? p.name20`. -/
def coalesceChain (p : Props) : List String → Option JValue
  | [] => none
  | k :: ks =>
    match getCoalesce p k with
    | some v => some v
    | none => coalesceChain p ks

/-- Rendering of `Number(v).toLocaleString()` for a non-null value; parsing of
numeric strings is not modelled (no claim depends on the digits shown). -/
def jsNumLocale : JValue → String
  | JValue.num q => jsLocaleString q
  | JValue.str s => s
  | JValue.null => "0"

/-- Hover string of the urban annotation (second `urban.features.forEach`
in `CombinedEverythingMap.fetchAll`): built from the name, GEOID and
population fields. -/
def urbanHover (p : Props) : String :=
  let name :=
    match coalesceChain p ["NAMELSAD20", "namelsad20", "NAME20", "name20"] with
    | some v => v
    | none => JValue.str "Urban Area"
  let geoid :=
    match coalesceChain p ["GEOID20", "geoid20"] with
    | some v => v
    | none => JValue.str "N/A"
  let pop := coalesceChain p ["POP", "pop"]
  let dens := coalesceChain p ["POPDEN", "popden"]
  "Urban Area: " ++ jsToString name ++
  "<br>GEOID20: " ++ jsToString geoid ++
  (match pop with
   | some v => "<br>Population: " ++ jsNumLocale v
   | none => "") ++
  (match dens with
   | some v => "<br>Density: " ++ jsToString v ++ " people/sq mi"
   | none => "")

/-- Assignments performed by the second urban pass: hover text first, then
the fill color. -/
def annotateUrban (acc : GeoidAcc) (p : Props) : Props :=
  setProp (setProp p "hoverText" (JValue.str (urbanHover p)))
    "fillColor" (JValue.str (urbanFillColor acc p))

/-- Urban annotation over a whole collection: the first pass builds the
palette table from the same feature list, the second pass annotates each
feature against the finished table and final counter. -/
def annotateUrbanFC (fc : FeatureCollection) : FeatureCollection :=
  let acc := buildGeoidTable (fc.features.map Feature.properties)
  ⟨fc.features.map (annotateFeature (annotateUrban acc))⟩

/-- Sum of the latitudes, as `coords.reduce((s, c) => s + c[1], 0)` computes it. -/
def sumLat (cs : List Coordinate) : ℚ :=
  cs.foldl (fun s c => s + c.lat) 0

/-- Sum of the longitudes, as `coords.reduce((s, c) => s + c[0], 0)` computes it. -/
def sumLon (cs : List Coordinate) : ℚ :=
  cs.foldl (fun s c => s + c.lon) 0

/-- JS division of a sum by a list length: `none` models the NaN produced by
`0 / 0` when the list is empty. -/
def jsDiv (a : ℚ) (n : ℕ) : Option ℚ :=
  if n = 0 then none else some (a / n)

/-- Ring the per-feature hover centroids are computed from:
`f.geometry.coordinates[0]` for a Polygon and `f.geometry.coordinates[0][0]`
for a MultiPolygon — only the first ring of the first polygon.  The code only
evaluates this on polygonal features. -/
def hoverRing : Geometry → List Coordinate
  | Geometry.polygon rings => rings.getD 0 []
  | Geometry.multiPolygon polys => (polys.getD 0 []).getD 0 []
  | _ => []

/-- Latitude of the per-feature hover centroid:
`ring.reduce((s, c) => s + c[1], 0) / ring.length`. -/
def featureHoverLat (f : Feature) : Option ℚ :=
  jsDiv (sumLat (hoverRing f.geometry)) (hoverRing f.geometry).length

/-- Longitude of the per-feature hover centroid. -/
def featureHoverLon (f : Feature) : Option ℚ :=
  jsDiv (sumLon (hoverRing f.geometry)) (hoverRing f.geometry).length

/-- Boundary coordinates gathered from one geometry for map centering
(the `flatMap` in the render effects): every ring of every polygon via
`flat()` / `flat(2)`, every line point, and the point itself for a Point. -/
def gatherCoords : Geometry → List Coordinate
  | Geometry.polygon rings => rings.flatten
  | Geometry.multiPolygon polys => polys.flatten.flatten
  | Geometry.lineString pts => pts
  | Geometry.multiLineString lines => lines.flatten
  | Geometry.point c => [c]

/-- All coordinates gathered from a feature list. -/
def allCoordsOf (fs : List Feature) : List Coordinate :=
  fs.flatMap (fun f => gatherCoords f.geometry)

/-- Map center of `CombinedMap` (`Merged.tsx` lines 101-109): the default
Hawaiʻi center unless some features are selected, in which case the mean of
the gathered coordinates — the guard is on the number of FEATURES, so selected
features with no coordinates divide by zero (NaN, modelled as `none`). -/
def combinedMapCenter (fs : List Feature) : Option ℚ × Option ℚ :=
  if 0 < fs.length then
    (jsDiv (sumLat (allCoordsOf fs)) (allCoordsOf fs).length,
     jsDiv (sumLon (allCoordsOf fs)) (allCoordsOf fs).length)
  else (some 20.7, some (-156.0))

/-- Map center of `CombinedEverythingMap` (`Merged.tsx` lines 516-535): the
default Hawaiʻi center unless the gathered COORDINATE list is non-empty, in
which case its mean. -/
def cemCenter (fs : List Feature) : Option ℚ × Option ℚ :=
  if 0 < (allCoordsOf fs).length then
    (jsDiv (sumLat (allCoordsOf fs)) (allCoordsOf fs).length,
     jsDiv (sumLon (allCoordsOf fs)) (allCoordsOf fs).length)
  else (some 20.7, some (-156.0))

/-- Visibility toggles of `CombinedEverythingMap` (all OFF by default). -/
structure Toggles where
  plants : Bool
  habitat : Bool
  urban : Bool
  roads : Bool
  hotels : Bool
  lulc : Bool
  stateParks : Bool
deriving DecidableEq, Repr

/-- Data states of `CombinedEverythingMap`: each dataset is `null` until its
fetch completes. -/
structure Loaded where
  plants : Option FeatureCollection
  habitat : Option FeatureCollection
  urban : Option FeatureCollection
  roads : Option FeatureCollection
  hotels : Option FeatureCollection
  lulc : Option FeatureCollection
  stateParks : Option FeatureCollection
deriving DecidableEq, Repr

/-- Features of a possibly-unloaded dataset. -/
def featuresOfOpt : Option FeatureCollection → List Feature
  | some fc => fc.features
  | none => []

/-- Features a guarded push contributes:
`if (showX && xGeojson) selected.push(...xGeojson.features)`. -/
def pick (b : Bool) (d : Option FeatureCollection) : List Feature :=
  if b then featuresOfOpt d else []

/-- Selected features the render effect gathers for centering. -/
def cemSelectedFeatures (t : Toggles) (d : Loaded) : List Feature :=
  pick t.plants d.plants ++ pick t.habitat d.habitat ++ pick t.urban d.urban ++
  pick t.roads d.roads ++ pick t.hotels d.hotels ++ pick t.lulc d.lulc ++
  pick t.stateParks d.stateParks

/-- Mapbox layer as the render effect builds it: the features of its GeoJSON
source, the layer type, and the color. -/
structure MapboxLayer where
  source : List Feature
  ltype : String
  color : Option JValue
deriving DecidableEq, Repr

/-- Fill layer for one feature: a one-feature source colored by the feature's
annotated `fillColor`. -/
def fillLayerOf (f : Feature) : MapboxLayer :=
  ⟨[f], "fill", getProp f.properties "fillColor"⟩

/-- Fill layers a guarded block contributes:
`if (showX && xGeojson) mapboxLayers.push(...features.map(...))`. -/
def fillLayers (b : Bool) (d : Option FeatureCollection) : List MapboxLayer :=
  if b then (featuresOfOpt d).map fillLayerOf else []

/-- Roads layer block: a single black line layer whose source is the whole
roads collection, pushed only when toggled and loaded. -/
def roadsLayers (b : Bool) (d : Option FeatureCollection) : List MapboxLayer :=
  if b && d.isSome then [⟨featuresOfOpt d, "line", some (JValue.str "#000000")⟩]
  else []

/-- Features of the combined outline layer: the toggled polygonal datasets. -/
def cemOutlineFeatures (t : Toggles) (d : Loaded) : List Feature :=
  pick t.plants d.plants ++ pick t.habitat d.habitat ++ pick t.urban d.urban ++
  pick t.lulc d.lulc ++ pick t.stateParks d.stateParks

/-- Mapbox layers of the `CombinedEverythingMap` render effect, in push
order: plant, habitat and urban fills, the roads line, LULC and state-park
fills, then one black outline layer over the toggled polygonal features when
any exist. -/
def cemMapboxLayers (t : Toggles) (d : Loaded) : List MapboxLayer :=
  fillLayers t.plants d.plants ++ fillLayers t.habitat d.habitat ++
  fillLayers t.urban d.urban ++ roadsLayers t.roads d.roads ++
  fillLayers t.lulc d.lulc ++ fillLayers t.stateParks d.stateParks ++
  (if 0 < (cemOutlineFeatures t d).length then
    [⟨cemOutlineFeatures t d, "line", some (JValue.str "black")⟩]
   else [])

/-- Scatter trace as the render effect builds it: optional legend name and the
per-point latitude, longitude and hover-text arrays (`none` entries model NaN
latitudes from empty rings and missing hover text). -/
structure MapTrace where
  name : Option String
  lat : List (Option ℚ)
  lon : List (Option ℚ)
  text : List (Option JValue)
deriving DecidableEq, Repr

/-- Invisible dummy trace always pushed first. -/
def dummyTrace : MapTrace := ⟨none, [], [], []⟩

/-- Hover text the traces read back from an annotated feature. -/
def hoverTextOf (f : Feature) : Option JValue :=
  getProp f.properties "hoverText"

/-- Latitude read by the hotels trace from `const [lon, lat] = f.geometry.coordinates`. -/
def pointLat (f : Feature) : Option ℚ :=
  match f.geometry with
  | Geometry.point c => some c.lat
  | _ => none

/-- Longitude read by the hotels trace. -/
def pointLon (f : Feature) : Option ℚ :=
  match f.geometry with
  | Geometry.point c => some c.lon
  | _ => none

/-- Invisible centroid-scatter trace over a feature list, placing one marker
at each feature's first-ring centroid with its hover text. -/
def centroidTrace (name : Option String) (fs : List Feature) : MapTrace :=
  ⟨name, fs.map featureHoverLat, fs.map featureHoverLon, fs.map hoverTextOf⟩

/-- Traces of the `CombinedEverythingMap` render effect, in push order: the
dummy trace, the urban hover trace, the hotels marker trace, the
plants/habitat centroid trace, and the LULC/state-parks centroid trace, each
guarded by its toggles. -/
def cemTraces (t : Toggles) (d : Loaded) : List MapTrace :=
  [dummyTrace] ++
  (if t.urban && (d.urban).isSome then
    [centroidTrace (some "Urban Areas") (featuresOfOpt d.urban)]
   else []) ++
  (if t.hotels && (d.hotels).isSome then
    [⟨some "Hotels", (featuresOfOpt d.hotels).map pointLat,
      (featuresOfOpt d.hotels).map pointLon,
      (featuresOfOpt d.hotels).map hoverTextOf⟩]
   else []) ++
  (if (t.plants && (d.plants).isSome) || (t.habitat && (d.habitat).isSome) then
    [centroidTrace none (pick t.plants d.plants ++ pick t.habitat d.habitat)]
   else []) ++
  (if (t.lulc && (d.lulc).isSome) || (t.stateParks && (d.stateParks).isSome) then
    [centroidTrace none (pick t.lulc d.lulc ++ pick t.stateParks d.stateParks)]
   else [])

/-- Outcome of one dataset fetch as a component observes it: the fetch promise
rejected, the response was not ok, the body failed to parse as JSON, or a
feature collection was produced. -/
inductive FetchResult where
  | fetchThrew
  | notOk
  | parseThrew
  | success (fc : FeatureCollection)
deriving DecidableEq, Repr

/-- Did this fetch produce data? -/
def FetchResult.isSuccess : FetchResult → Bool
  | FetchResult.success _ => true
  | _ => false

/-- Did the fetch promise itself reject? -/
def FetchResult.isFetchThrew : FetchResult → Bool
  | FetchResult.fetchThrew => true
  | _ => false

/-- Did the response arrive with `ok` false? -/
def FetchResult.isNotOk : FetchResult → Bool
  | FetchResult.notOk => true
  | _ => false

/-- Did the JSON body fail to parse? -/
def FetchResult.isParseThrew : FetchResult → Bool
  | FetchResult.parseThrew => true
  | _ => false

/-- Parsed collection of a successful fetch (only read on the success path). -/
def FetchResult.payload : FetchResult → FeatureCollection
  | FetchResult.success fc => fc
  | _ => ⟨[]⟩

/-- Observable outcome of a component's fetch effect: the data it stores (its
state is unchanged when `none`), the error text it writes into the page for
the user, and the text it logs to the console. -/
structure Outcome (σ : Type) where
  stored : Option σ
  userMessage : Option String
  consoleMessage : Option String

theorem Outcome.ext_iff {σ : Type} (a b : Outcome σ) :
    a = b ↔ a.stored = b.stored ∧ a.userMessage = b.userMessage ∧
      a.consoleMessage = b.consoleMessage := by
  constructor
  · intro h; subst h; exact ⟨rfl, rfl, rfl⟩
  · intro ⟨h1, h2, h3⟩; cases a; cases b; simp_all

instance {σ : Type} [DecidableEq σ] : DecidableEq (Outcome σ) := by
  intro a b
  have : Decidable (a.stored = b.stored ∧ a.userMessage = b.userMessage ∧
      a.consoleMessage = b.consoleMessage) := inferInstance
  exact decidable_of_iff _ (Outcome.ext_iff a b).symm

/-- Density meaning table of the standalone plants map (`densityMeaning` in
`PlotlyMap.tsx`). -/
def densityMeaning : List (String × String) :=
  [("O", "Little or no T&E species."),
   ("L", "Low concentration of T&E species."),
   ("M", "Medium concentration of T&E species."),
   ("H", "High concentration of T&E species."),
   ("VH", "Very high concentration of T&E species."),
   ("OLO", "OL in cane fields, L in gullies and coastal areas.")]

/-- Rendering of `p.key?.toLocaleString()` with no `??` fallback, as the
standalone plants map interpolates it: an absent or null field prints as the
string undefined. -/
def locOrUndef (v : Option JValue) : String :=
  match v with
  | some (JValue.num q) => jsLocaleString q
  | some (JValue.str s) => s
  | _ => "undefined"

/-- Hover string of the standalone `PlotlyMap.tsx` plants variant: like the
combined variants but it also includes the density meaning and interpolates
missing numeric fields as undefined. -/
def plantHoverPM (p : Props) : String :=
  let meaning :=
    match lookupTable densityMeaning (jsToString (plantDensity p)) with
    | some m => m
    | none => ""
  "Density: " ++ jsToString (plantDensity p) ++ "\n" ++ meaning ++
  "\nArea: " ++ locOrUndef (getCoalesce p "st_areashape") ++
  "\nPerimeter: " ++ locOrUndef (getCoalesce p "st_perimetershape")

/-- Assignments performed by the standalone plants variant; the fill color
logic is the same `plantColors[d] ?? cccccc` expression as the combined
variants. -/
def annotatePlantsPM (p : Props) : Props :=
  setProp (setProp p "fillColor" (JValue.str (plantFill p)))
    "hoverText" (JValue.str (plantHoverPM p))

/-- Fetch control flow of the standalone plants map (`PlotlyMap.tsx`): a not-ok
response writes a failure string into the map container and stops; any thrown
error is caught and writes an error string into the container; on success the
annotated collection is rendered. -/
def plotlyMapRun (r : FetchResult) : Outcome FeatureCollection :=
  match r with
  | FetchResult.fetchThrew => ⟨none, some "Error loading map: ...", none⟩
  | FetchResult.notOk => ⟨none, some "Failed to load GeoJSON.", none⟩
  | FetchResult.parseThrew => ⟨none, some "Error loading map: ...", none⟩
  | FetchResult.success fc => ⟨some (annotateFC annotatePlantsPM fc), none, none⟩

/-- Fetch control flow of the standalone habitat map (`HabitatMap`): same
shape as the plants variant, with the habitat annotation. -/
def habitatMapRun (r : FetchResult) : Outcome FeatureCollection :=
  match r with
  | FetchResult.fetchThrew => ⟨none, some "Error loading map: ...", none⟩
  | FetchResult.notOk => ⟨none, some "Failed to load GeoJSON.", none⟩
  | FetchResult.parseThrew => ⟨none, some "Error loading map: ...", none⟩
  | FetchResult.success fc => ⟨some (annotateFC annotateHabitat fc), none, none⟩

/-- Fetch control flow of `UrbanRoadMap.tsx` (urban + roads): a rejected fetch
is caught and writes an error string into the container (and logs it); a
not-ok response writes a failure string; on success both collections are used
as fetched (this variant annotates nothing). -/
def urbanRoadMapRun (ru rr : FetchResult) :
    Outcome (FeatureCollection × FeatureCollection) :=
  if ru.isFetchThrew || rr.isFetchThrew then
    ⟨none, some "Error: ...", some "err"⟩
  else if ru.isNotOk || rr.isNotOk then
    ⟨none, some "Failed to load GeoJSON files.", none⟩
  else if ru.isParseThrew || rr.isParseThrew then
    ⟨none, some "Error: ...", some "err"⟩
  else ⟨some (ru.payload, rr.payload), none, none⟩

/-- Fetch control flow of `CombinedMap.fetchData` (`Merged.tsx` lines 31-67):
a rejected fetch or a parse error is caught and only logged to the console; a
not-ok response returns SILENTLY (no message anywhere); only on success are
the annotated plants and habitat collections stored. -/
def combinedMapFetch (rp rh : FetchResult) :
    Outcome (FeatureCollection × FeatureCollection) :=
  if rp.isFetchThrew || rh.isFetchThrew then ⟨none, none, some "err"⟩
  else if rp.isNotOk || rh.isNotOk then ⟨none, none, none⟩
  else if rp.isParseThrew || rh.isParseThrew then ⟨none, none, some "err"⟩
  else
    ⟨some (annotateFC annotatePlants rp.payload, annotateFC annotateHabitat rh.payload),
     none, none⟩

/-- Seven datasets of the full combined map, in fetch order. -/
structure Fetched7 where
  plants : FeatureCollection
  habitat : FeatureCollection
  urban : FeatureCollection
  roads : FeatureCollection
  hotels : FeatureCollection
  lulc : FeatureCollection
  stateParks : FeatureCollection
deriving DecidableEq, Repr

/-- Annotation stage of `CombinedEverythingMap.fetchAll`: plants, habitat,
urban, LULC and state parks are annotated, hotels get only hover text, and the
roads collection is stored exactly as fetched. -/
def processAll (d : Fetched7) : Fetched7 :=
  { plants := annotateFC annotatePlants d.plants
    habitat := annotateFC annotateHabitat d.habitat
    urban := annotateUrbanFC d.urban
    roads := d.roads
    hotels := annotateFC annotateHotel d.hotels
    lulc := annotateFC annotateLULC d.lulc
    stateParks := annotateFC annotateStatePark d.stateParks }

/-- Dataset files the full combined map fetches, in the order of the
`Promise.all` array in `CombinedEverythingMap.fetchAll`; the request list is a
constant — every request is issued before any response is examined. -/
def combinedEverythingUrls : List String :=
  ["/datasets/Threatened-Endangered_Plants.geojson",
   "/datasets/Areas_of_Critical_Habitat_(Consolidated).geojson",
   "/datasets/2020_Urban_Areas.geojson",
   "/datasets/roads_simplified.json",
   "/datasets/Hotels.geojson",
   "/datasets/Land_Use_Land_Cover_(LULC).geojson",
   "/datasets/State_Parks.geojson"]

/-- Fetch control flow of `CombinedEverythingMap.fetchAll`: a rejected fetch
or parse error is caught and logged; any not-ok response logs a failure line
and returns; only when all seven responses are ok and parsed is the annotated
data stored.  No error text is ever shown in the page itself. -/
def cemFetch (r1 r2 r3 r4 r5 r6 r7 : FetchResult) : Outcome Fetched7 :=
  if r1.isFetchThrew || r2.isFetchThrew || r3.isFetchThrew || r4.isFetchThrew ||
     r5.isFetchThrew || r6.isFetchThrew || r7.isFetchThrew then
    ⟨none, none, some "Error fetching datasets"⟩
  else if r1.isNotOk || r2.isNotOk || r3.isNotOk || r4.isNotOk ||
     r5.isNotOk || r6.isNotOk || r7.isNotOk then
    ⟨none, none, some "One or more dataset fetches failed"⟩
  else if r1.isParseThrew || r2.isParseThrew || r3.isParseThrew || r4.isParseThrew ||
     r5.isParseThrew || r6.isParseThrew || r7.isParseThrew then
    ⟨none, none, some "Error fetching datasets"⟩
  else
    ⟨some (processAll ⟨r1.payload, r2.payload, r3.payload, r4.payload,
       r5.payload, r6.payload, r7.payload⟩), none, none⟩

theorem getProp_setProp_same (p : Props) (k : String) (v : JValue) :
    getProp (setProp p k v) k = some v := by
  induction p with
  | nil => simp [getProp, setProp]
  | cons kv rest ih =>
    obtain ⟨k0, v0⟩ := kv
    by_cases h : k0 = k
    · subst h
      simp [getProp, setProp]
    · simpa [getProp, setProp, h] using ih

theorem getProp_setProp_other (p : Props) (k k0 : String) (v : JValue)
    (h : k0 ≠ k) : getProp (setProp p k v) k0 = getProp p k0 := by
  induction p with
  | nil => simp [getProp, setProp, Ne.symm h]
  | cons kv rest ih =>
    obtain ⟨k1, v1⟩ := kv
    by_cases h1 : k1 = k
    · subst h1
      simp [getProp, setProp, Ne.symm h]
    · by_cases h2 : k1 = k0
      · subst h2
        simp [getProp, setProp, h1]
      · simpa [getProp, setProp, h1, h2] using ih

theorem getProp_setProp_two (p : Props) (k1 k2 k : String) (v1 v2 : JValue)
    (h1 : k ≠ k1) (h2 : k ≠ k2) :
    getProp (setProp (setProp p k1 v1) k2 v2) k = getProp p k := by
  rw [getProp_setProp_other _ _ _ _ h2, getProp_setProp_other _ _ _ _ h1]

/-- C4: the annotation step modifies only the fillColor and hoverText fields
of a feature's properties; every other property value, the feature's
geometry, and the number and order of the features in a collection are
unchanged by annotation. -/
theorem c4_annotation_frame :
    ∀ (p : Props) (k : String) (acc : GeoidAcc) (a : Props → Props)
      (fc : FeatureCollection) (f : Feature) (i : ℕ),
      k ≠ "fillColor" → k ≠ "hoverText" →
      (getProp (annotatePlants p) k = getProp p k ∧
       getProp (annotateHabitat p) k = getProp p k ∧
       getProp (annotateHotel p) k = getProp p k ∧
       getProp (annotateLULC p) k = getProp p k ∧
       getProp (annotateStatePark p) k = getProp p k ∧
       getProp (annotateUrban acc p) k = getProp p k ∧
       getProp (annotatePlantsPM p) k = getProp p k) ∧
      (annotateFeature a f).geometry = f.geometry ∧
      (annotateFC a fc).features.length = fc.features.length ∧
      (annotateFC a fc).features.get? i = (fc.features.get? i).map (annotateFeature a) := by
  intro p k acc a fc f i hf hh
  refine ⟨⟨?_, ?_, ?_, ?_, ?_, ?_, ?_⟩, rfl, ?_, ?_⟩
  · exact getProp_setProp_two _ _ _ _ _ _ hf hh
  · exact getProp_setProp_two _ _ _ _ _ _ hf hh
  · exact getProp_setProp_other _ _ _ _ hh
  · exact getProp_setProp_two _ _ _ _ _ _ hf hh
  · exact getProp_setProp_two _ _ _ _ _ _ hf hh
  · exact getProp_setProp_two _ _ _ _ _ _ hh hf
  · exact getProp_setProp_two _ _ _ _ _ _ hf hh
  · simp [annotateFC]
  · simp [annotateFC, List.getElem?_map]

/-- Witness for `c4_annotation_frame` at a concrete feature collection. -/
theorem c4_annotation_frame_witness :
    getProp (annotatePlants [("density", JValue.str "M"), ("acres", JValue.num 5)])
        "acres" = getProp [("density", JValue.str "M"), ("acres", JValue.num 5)] "acres" ∧
    (annotateFC annotatePlants ⟨[⟨Geometry.point ⟨1, 2⟩, []⟩]⟩).features.length =
      (⟨[⟨Geometry.point ⟨1, 2⟩, []⟩]⟩ : FeatureCollection).features.length := by
  have h := c4_annotation_frame [("density", JValue.str "M"), ("acres", JValue.num 5)]
    "acres" ⟨[], 0⟩ annotatePlants ⟨[⟨Geometry.point ⟨1, 2⟩, []⟩]⟩
    ⟨Geometry.point ⟨1, 2⟩, []⟩ 0 (by decide) (by decide)
  exact ⟨h.1.1, h.2.2.1⟩

theorem getProp_fill_then_hover_fill (p : Props) (v h : JValue) :
    getProp (setProp (setProp p "fillColor" v) "hoverText" h) "fillColor" = some v := by
  rw [getProp_setProp_other _ _ _ _ (by decide), getProp_setProp_same]

theorem getProp_fill_then_hover_hover (p : Props) (v h : JValue) :
    getProp (setProp (setProp p "fillColor" v) "hoverText" h) "hoverText" = some h :=
  getProp_setProp_same _ _ _

theorem getProp_hover_then_fill_fill (p : Props) (v h : JValue) :
    getProp (setProp (setProp p "hoverText" h) "fillColor" v) "fillColor" = some v :=
  getProp_setProp_same _ _ _

theorem getProp_hover_then_fill_hover (p : Props) (v h : JValue) :
    getProp (setProp (setProp p "hoverText" h) "fillColor" v) "hoverText" = some h := by
  rw [getProp_setProp_other _ _ _ _ (by decide), getProp_setProp_same]

theorem annotatePlants_fillColor (p : Props) :
    getProp (annotatePlants p) "fillColor" = some (JValue.str (plantFill p)) :=
  getProp_fill_then_hover_fill _ _ _

theorem annotatePlants_hoverText (p : Props) :
    getProp (annotatePlants p) "hoverText" = some (JValue.str (plantHover p)) :=
  getProp_fill_then_hover_hover _ _ _

theorem annotateHabitat_fillColor (p : Props) :
    getProp (annotateHabitat p) "fillColor" = some (JValue.str (habitatFill p)) :=
  getProp_fill_then_hover_fill _ _ _

theorem annotateHabitat_hoverText (p : Props) :
    getProp (annotateHabitat p) "hoverText" = some (JValue.str (habitatHover p)) :=
  getProp_fill_then_hover_hover _ _ _

theorem annotateLULC_fillColor (p : Props) :
    getProp (annotateLULC p) "fillColor" = some (JValue.str (lulcFill p)) :=
  getProp_fill_then_hover_fill _ _ _

theorem annotateLULC_hoverText (p : Props) :
    getProp (annotateLULC p) "hoverText" = some (JValue.str (lulcHover p)) :=
  getProp_fill_then_hover_hover _ _ _

theorem annotateStatePark_fillColor (p : Props) :
    getProp (annotateStatePark p) "fillColor" = some (JValue.str "#33a02c") :=
  getProp_fill_then_hover_fill _ _ _

theorem annotateStatePark_hoverText (p : Props) :
    getProp (annotateStatePark p) "hoverText" = some (JValue.str (stateParkHover p)) :=
  getProp_fill_then_hover_hover _ _ _

theorem annotateUrban_fillColor (acc : GeoidAcc) (p : Props) :
    getProp (annotateUrban acc p) "fillColor" = some (JValue.str (urbanFillColor acc p)) :=
  getProp_hover_then_fill_fill _ _ _

theorem annotateUrban_hoverText (acc : GeoidAcc) (p : Props) :
    getProp (annotateUrban acc p) "hoverText" = some (JValue.str (urbanHover p)) :=
  getProp_hover_then_fill_hover _ _ _

theorem annotateHotel_hoverText (p : Props) :
    getProp (annotateHotel p) "hoverText" = some (JValue.str (hotelHover p)) :=
  getProp_setProp_same _ _ _

theorem annotateHotel_fillColor (p : Props) :
    getProp (annotateHotel p) "fillColor" = getProp p "fillColor" :=
  getProp_setProp_other _ _ _ _ (by decide)

theorem lookupTable_mem_values (t : List (String × String)) (k c : String)
    (h : lookupTable t k = some c) : c ∈ t.map Prod.snd := by
  unfold lookupTable at h
  cases hf : List.find? (fun kv => kv.1 = k) t with
  | none => rw [hf] at h; simp at h
  | some kv =>
    rw [hf] at h
    simp at h
    subst h
    exact List.mem_map_of_mem Prod.snd (List.mem_of_find?_eq_some hf)

/-- C10: a plants feature whose properties lack a density key is treated as
density O — its fill color is the table color #d9d9d9 for O, not the generic
lookup-miss fallback #cccccc, and its hover text reports density O; the
#cccccc fallback is reached only when a density value is present but is not
one of the table keys O, L, M, H, VH, OLO. -/
theorem c10_missing_density_is_O :
    ∀ (p : Props),
      (getCoalesce p "density" = none →
        getProp (annotatePlants p) "fillColor" = some (JValue.str "#d9d9d9") ∧
        ∃ rest : String, getProp (annotatePlants p) "hoverText" =
          some (JValue.str ("Density: O" ++ rest))) ∧
      (getProp (annotatePlants p) "fillColor" = some (JValue.str "#cccccc") →
        ∃ v : JValue, getCoalesce p "density" = some v ∧
          lookupTable plantColors (jsToString v) = none) := by
  intro p
  constructor
  · intro h
    have hd : plantDensity p = JValue.str "O" := by simp [plantDensity, h]
    have hf : plantFill p = "#d9d9d9" := by
      unfold plantFill
      rw [hd]
      decide
    constructor
    · rw [annotatePlants_fillColor, hf]
    · refine ⟨"\nArea: " ++ locOrNA (getCoalesce p "st_areashape") ++
        "\nPerimeter: " ++ locOrNA (getCoalesce p "st_perimetershape"), ?_⟩
      rw [annotatePlants_hoverText]
      have hh : plantHover p = "Density: O" ++
          ("\nArea: " ++ locOrNA (getCoalesce p "st_areashape") ++
           "\nPerimeter: " ++ locOrNA (getCoalesce p "st_perimetershape")) := by
        unfold plantHover
        rw [hd]
        apply String.ext
        simp [jsToString, String.data_append, List.append_assoc]
      rw [hh]
  · intro h
    rw [annotatePlants_fillColor] at h
    have hf : plantFill p = "#cccccc" := JValue.str.inj (Option.some.inj h)
    cases hd : getCoalesce p "density" with
    | none =>
      exfalso
      have hdd : plantDensity p = JValue.str "O" := by simp [plantDensity, hd]
      have : plantFill p = "#d9d9d9" := by
        unfold plantFill
        rw [hdd]
        decide
      rw [this] at hf
      exact absurd hf (by decide)
    | some v =>
      have hdd : plantDensity p = v := by simp [plantDensity, hd]
      cases hl : lookupTable plantColors (jsToString v) with
      | none => exact ⟨v, rfl, hl⟩
      | some c =>
        exfalso
        rw [plantFill, hdd, hl] at hf
        subst hf
        have := lookupTable_mem_values _ _ _ hl
        simp [plantColors] at this

/-- Witness for `c10_missing_density_is_O`: a bag with no density key gets the
O color, and a bag with the unknown density X satisfies the premise of the
#cccccc direction. -/
theorem c10_missing_density_is_O_witness :
    getProp (annotatePlants [("st_areashape", JValue.num 4)]) "fillColor" =
      some (JValue.str "#d9d9d9") ∧
    (∃ v : JValue, getCoalesce [("density", JValue.str "X")] "density" = some v ∧
      lookupTable plantColors (jsToString v) = none) :=
  ⟨((c10_missing_density_is_O [("st_areashape", JValue.num 4)]).1 (by decide)).1,
   (c10_missing_density_is_O [("density", JValue.str "X")]).2 (by decide)⟩

/-- C3: a feature whose categorical key misses the static color table gets
that table's fixed default fill color (#cccccc for plants, #a6cee3 for
habitat, #cccccc for land-use/cover, the first palette entry for urban), so
every annotated feature carries a defined fill color. -/
theorem c3_lookup_miss_default_color :
    ∀ (p : Props) (acc : GeoidAcc),
      (lookupTable plantColors (jsToString (plantDensity p)) = none →
        getProp (annotatePlants p) "fillColor" = some (JValue.str "#cccccc")) ∧
      (lookupTable habitatColors (jsToString (habitatIsland p)) = none →
        getProp (annotateHabitat p) "fillColor" = some (JValue.str "#a6cee3")) ∧
      (lookupTable lulcColors (lulcCode p) = none →
        getProp (annotateLULC p) "fillColor" = some (JValue.str "#cccccc")) ∧
      (lookupTable acc.table (urbanId p acc.idx) = none →
        getProp (annotateUrban acc p) "fillColor" =
          some (JValue.str "rgba(31,119,180,0.45)")) ∧
      (getProp (annotatePlants p) "fillColor").isSome ∧
      (getProp (annotateHabitat p) "fillColor").isSome ∧
      (getProp (annotateLULC p) "fillColor").isSome ∧
      (getProp (annotateUrban acc p) "fillColor").isSome ∧
      (getProp (annotateStatePark p) "fillColor").isSome := by
  intro p acc
  refine ⟨?_, ?_, ?_, ?_, ?_, ?_, ?_, ?_, ?_⟩
  · intro h
    rw [annotatePlants_fillColor]
    unfold plantFill
    rw [h]
  · intro h
    rw [annotateHabitat_fillColor]
    unfold habitatFill
    rw [h]
  · intro h
    rw [annotateLULC_fillColor]
    unfold lulcFill
    rw [h]
  · intro h
    rw [annotateUrban_fillColor]
    unfold urbanFillColor
    rw [h]
    decide
  · rw [annotatePlants_fillColor]; rfl
  · rw [annotateHabitat_fillColor]; rfl
  · rw [annotateLULC_fillColor]; rfl
  · rw [annotateUrban_fillColor]; rfl
  · rw [annotateStatePark_fillColor]; rfl

/-- Witness for `c3_lookup_miss_default_color` at bags whose keys miss every
table. -/
theorem c3_lookup_miss_default_color_witness :
    getProp (annotatePlants [("density", JValue.str "ZZ")]) "fillColor" =
      some (JValue.str "#cccccc") ∧
    getProp (annotateHabitat [("island", JValue.str "Atlantis")]) "fillColor" =
      some (JValue.str "#a6cee3") ∧
    getProp (annotateLULC [("landcover", JValue.str "99")]) "fillColor" =
      some (JValue.str "#cccccc") ∧
    getProp (annotateUrban ⟨[], 0⟩ [("GEOID20", JValue.str "123")]) "fillColor" =
      some (JValue.str "rgba(31,119,180,0.45)") :=
  ⟨(c3_lookup_miss_default_color [("density", JValue.str "ZZ")] ⟨[], 0⟩).1 (by decide),
   (c3_lookup_miss_default_color [("island", JValue.str "Atlantis")] ⟨[], 0⟩).2.1 (by decide),
   (c3_lookup_miss_default_color [("landcover", JValue.str "99")] ⟨[], 0⟩).2.2.1 (by decide),
   (c3_lookup_miss_default_color [("GEOID20", JValue.str "123")] ⟨[], 0⟩).2.2.2.1 (by decide)⟩

/-- C2 counterexample: the claim fails for hotels and roads — annotating a
hotel feature adds no fill color at all, and the roads dataset passes through
the annotation stage of `CombinedEverythingMap.fetchAll` completely
unchanged, so not every fetched dataset gets two derived display fields. -/
theorem c2_counterexample :
    getProp (annotateHotel [("name", JValue.str "Inn")]) "fillColor" = none ∧
    (processAll ⟨⟨[]⟩, ⟨[]⟩, ⟨[]⟩,
        ⟨[⟨Geometry.lineString [⟨1, 2⟩], [("road", JValue.str "H1")]⟩]⟩,
        ⟨[]⟩, ⟨[]⟩, ⟨[]⟩⟩).roads =
      ⟨[⟨Geometry.lineString [⟨1, 2⟩], [("road", JValue.str "H1")]⟩]⟩ ∧
    getProp ((processAll ⟨⟨[]⟩, ⟨[]⟩, ⟨[]⟩,
        ⟨[⟨Geometry.lineString [⟨1, 2⟩], [("road", JValue.str "H1")]⟩]⟩,
        ⟨[]⟩, ⟨[]⟩, ⟨[]⟩⟩).roads.features.getD 0
          ⟨Geometry.point ⟨0, 0⟩, []⟩).properties "fillColor" = none := by
  refine ⟨by decide, rfl, by decide⟩

/-- C2 amended: the polygonal datasets (plants, habitat, urban, land-use/
cover, state parks) each get a fill color and a hover string; plants, habitat
and land-use/cover colors come from static lookup tables keyed by a
categorical property, urban colors from the palette table built over the
features' GEOIDs, and the state-parks color is the constant #33a02c; hotel
features get only a hover string (their fillColor property is untouched); the
roads collection is stored exactly as fetched, with no derived fields. -/
theorem c2_amended_display_fields :
    ∀ (p : Props) (acc : GeoidAcc) (d : Fetched7),
      (getProp (annotatePlants p) "fillColor" = some (JValue.str (plantFill p)) ∧
       (getProp (annotatePlants p) "hoverText").isSome) ∧
      (getProp (annotateHabitat p) "fillColor" = some (JValue.str (habitatFill p)) ∧
       (getProp (annotateHabitat p) "hoverText").isSome) ∧
      (getProp (annotateUrban acc p) "fillColor" =
         some (JValue.str (urbanFillColor acc p)) ∧
       (getProp (annotateUrban acc p) "hoverText").isSome) ∧
      (getProp (annotateLULC p) "fillColor" = some (JValue.str (lulcFill p)) ∧
       (getProp (annotateLULC p) "hoverText").isSome) ∧
      (getProp (annotateStatePark p) "fillColor" = some (JValue.str "#33a02c") ∧
       (getProp (annotateStatePark p) "hoverText").isSome) ∧
      ((getProp (annotateHotel p) "hoverText").isSome ∧
       getProp (annotateHotel p) "fillColor" = getProp p "fillColor") ∧
      (processAll d).roads = d.roads := by
  intro p acc d
  refine ⟨⟨annotatePlants_fillColor p, ?_⟩, ⟨annotateHabitat_fillColor p, ?_⟩,
    ⟨annotateUrban_fillColor acc p, ?_⟩, ⟨annotateLULC_fillColor p, ?_⟩,
    ⟨annotateStatePark_fillColor p, ?_⟩,
    ⟨?_, annotateHotel_fillColor p⟩, rfl⟩
  · rw [annotatePlants_hoverText]; rfl
  · rw [annotateHabitat_hoverText]; rfl
  · rw [annotateUrban_hoverText]; rfl
  · rw [annotateLULC_hoverText]; rfl
  · rw [annotateStatePark_hoverText]; rfl
  · rw [annotateHotel_hoverText]; rfl

theorem FetchResult.not_success_of_fetchThrew (r : FetchResult)
    (h : r.isFetchThrew = true) : r.isSuccess = false := by
  cases r <;> simp_all [FetchResult.isFetchThrew, FetchResult.isSuccess]

theorem FetchResult.not_success_of_notOk (r : FetchResult)
    (h : r.isNotOk = true) : r.isSuccess = false := by
  cases r <;> simp_all [FetchResult.isNotOk, FetchResult.isSuccess]

theorem FetchResult.not_success_of_parseThrew (r : FetchResult)
    (h : r.isParseThrew = true) : r.isSuccess = false := by
  cases r <;> simp_all [FetchResult.isParseThrew, FetchResult.isSuccess]

theorem FetchResult.success_of_not_bad (r : FetchResult)
    (h1 : r.isFetchThrew = false) (h2 : r.isNotOk = false)
    (h3 : r.isParseThrew = false) : r.isSuccess = true := by
  cases r <;> simp_all [FetchResult.isFetchThrew, FetchResult.isNotOk,
    FetchResult.isParseThrew, FetchResult.isSuccess]

theorem cemFetch_stored_isSome (r1 r2 r3 r4 r5 r6 r7 : FetchResult) :
    ((cemFetch r1 r2 r3 r4 r5 r6 r7).stored).isSome =
      (r1.isSuccess && r2.isSuccess && r3.isSuccess && r4.isSuccess &&
       r5.isSuccess && r6.isSuccess && r7.isSuccess) := by
  unfold cemFetch
  split_ifs with h1 h2 h3
  · simp only [Bool.or_eq_true] at h1
    rcases h1 with ((((((h | h) | h) | h) | h) | h) | h) <;>
      simp [FetchResult.not_success_of_fetchThrew _ h]
  · simp only [Bool.or_eq_true] at h2
    rcases h2 with ((((((h | h) | h) | h) | h) | h) | h) <;>
      simp [FetchResult.not_success_of_notOk _ h]
  · simp only [Bool.or_eq_true] at h3
    rcases h3 with ((((((h | h) | h) | h) | h) | h) | h) <;>
      simp [FetchResult.not_success_of_parseThrew _ h]
  · simp only [Bool.or_eq_true, not_or, Bool.not_eq_true] at h1 h2 h3
    obtain ⟨⟨⟨⟨⟨⟨a1, a2⟩, a3⟩, a4⟩, a5⟩, a6⟩, a7⟩ := h1
    obtain ⟨⟨⟨⟨⟨⟨b1, b2⟩, b3⟩, b4⟩, b5⟩, b6⟩, b7⟩ := h2
    obtain ⟨⟨⟨⟨⟨⟨c1, c2⟩, c3⟩, c4⟩, c5⟩, c6⟩, c7⟩ := h3
    simp [FetchResult.success_of_not_bad _ a1 b1 c1,
      FetchResult.success_of_not_bad _ a2 b2 c2,
      FetchResult.success_of_not_bad _ a3 b3 c3,
      FetchResult.success_of_not_bad _ a4 b4 c4,
      FetchResult.success_of_not_bad _ a5 b5 c5,
      FetchResult.success_of_not_bad _ a6 b6 c6,
      FetchResult.success_of_not_bad _ a7 b7 c7]

theorem cemFetch_userMessage_none (r1 r2 r3 r4 r5 r6 r7 : FetchResult) :
    (cemFetch r1 r2 r3 r4 r5 r6 r7).userMessage = none := by
  unfold cemFetch
  split_ifs <;> rfl

/-- C5 counterexample: the combined variants do not show an error string to
the user — `CombinedMap.fetchData` returns silently when a response is not
ok (no message anywhere), and `CombinedEverythingMap.fetchAll` only writes to
the console — so the claim that every variant's error path shows an error
string to the user is false. -/
theorem c5_counterexample :
    (combinedMapFetch FetchResult.notOk FetchResult.notOk).userMessage = none ∧
    (combinedMapFetch FetchResult.notOk FetchResult.notOk).consoleMessage = none ∧
    (combinedMapFetch FetchResult.notOk FetchResult.notOk).stored = none ∧
    (cemFetch FetchResult.notOk (FetchResult.success ⟨[]⟩) (FetchResult.success ⟨[]⟩)
      (FetchResult.success ⟨[]⟩) (FetchResult.success ⟨[]⟩) (FetchResult.success ⟨[]⟩)
      (FetchResult.success ⟨[]⟩)).userMessage = none :=
  ⟨rfl, rfl, rfl, rfl⟩

/-- C5 amended: every variant handles a failed fetch inside one try/catch-
style path and stores no data on failure; the standalone variants (plants
map, habitat map, urban/road map) write an error string into the map
container, while the combined variants never show a user-visible error —
they log to the console or, on a not-ok response in `CombinedMap`, return
silently. -/
theorem c5_amended_failure_paths :
    ∀ (r ru rr rp rh r1 r2 r3 r4 r5 r6 r7 : FetchResult),
      (r.isSuccess = false →
        (plotlyMapRun r).stored = none ∧
        ((plotlyMapRun r).userMessage).isSome = true ∧
        (habitatMapRun r).stored = none ∧
        ((habitatMapRun r).userMessage).isSome = true) ∧
      ((ru.isSuccess && rr.isSuccess) = false →
        (urbanRoadMapRun ru rr).stored = none ∧
        ((urbanRoadMapRun ru rr).userMessage).isSome = true) ∧
      ((rp.isSuccess && rh.isSuccess) = false →
        (combinedMapFetch rp rh).stored = none) ∧
      (combinedMapFetch rp rh).userMessage = none ∧
      ((r1.isSuccess && r2.isSuccess && r3.isSuccess && r4.isSuccess &&
        r5.isSuccess && r6.isSuccess && r7.isSuccess) = false →
        (cemFetch r1 r2 r3 r4 r5 r6 r7).stored = none) ∧
      (cemFetch r1 r2 r3 r4 r5 r6 r7).userMessage = none := by
  intro r ru rr rp rh r1 r2 r3 r4 r5 r6 r7
  refine ⟨?_, ?_, ?_, ?_, ?_, cemFetch_userMessage_none _ _ _ _ _ _ _⟩
  · intro h
    cases r <;> simp_all [plotlyMapRun, habitatMapRun, FetchResult.isSuccess]
  · intro h
    cases ru <;> cases rr <;>
      simp_all [urbanRoadMapRun, FetchResult.isSuccess, FetchResult.isFetchThrew,
        FetchResult.isNotOk, FetchResult.isParseThrew]
  · intro h
    cases rp <;> cases rh <;>
      simp_all [combinedMapFetch, FetchResult.isSuccess, FetchResult.isFetchThrew,
        FetchResult.isNotOk, FetchResult.isParseThrew]
  · cases rp <;> cases rh <;>
      simp [combinedMapFetch, FetchResult.isFetchThrew,
        FetchResult.isNotOk, FetchResult.isParseThrew]
  · intro h
    have hi := cemFetch_stored_isSome r1 r2 r3 r4 r5 r6 r7
    rw [h] at hi
    cases hs : (cemFetch r1 r2 r3 r4 r5 r6 r7).stored with
    | none => rfl
    | some v => rw [hs] at hi; simp at hi

/-- Witness for `c5_amended_failure_paths` at concrete failing fetches. -/
theorem c5_amended_failure_paths_witness :
    (plotlyMapRun FetchResult.notOk).stored = none ∧
    ((plotlyMapRun FetchResult.notOk).userMessage).isSome = true ∧
    (combinedMapFetch FetchResult.parseThrew (FetchResult.success ⟨[]⟩)).stored = none ∧
    (cemFetch FetchResult.fetchThrew (FetchResult.success ⟨[]⟩) (FetchResult.success ⟨[]⟩)
      (FetchResult.success ⟨[]⟩) (FetchResult.success ⟨[]⟩) (FetchResult.success ⟨[]⟩)
      (FetchResult.success ⟨[]⟩)).stored = none := by
  have h := c5_amended_failure_paths FetchResult.notOk FetchResult.notOk FetchResult.notOk
    FetchResult.parseThrew (FetchResult.success ⟨[]⟩) FetchResult.fetchThrew
    (FetchResult.success ⟨[]⟩) (FetchResult.success ⟨[]⟩) (FetchResult.success ⟨[]⟩)
    (FetchResult.success ⟨[]⟩) (FetchResult.success ⟨[]⟩) (FetchResult.success ⟨[]⟩)
  exact ⟨(h.1 (by decide)).1, (h.1 (by decide)).2.1,
    h.2.2.1 (by decide), h.2.2.2.2.1 (by decide)⟩

/-- C6: the full combined map fetches exactly the seven static dataset files
(threatened plants, critical habitat, urban areas, roads, hotels,
land-use/cover, state parks); the request list is a constant issued in one
`Promise.all`, so no request depends on another's response, and the annotated
data is produced exactly when all seven responses succeed. -/
theorem c6_seven_parallel_fetches :
    combinedEverythingUrls =
      ["/datasets/Threatened-Endangered_Plants.geojson",
       "/datasets/Areas_of_Critical_Habitat_(Consolidated).geojson",
       "/datasets/2020_Urban_Areas.geojson",
       "/datasets/roads_simplified.json",
       "/datasets/Hotels.geojson",
       "/datasets/Land_Use_Land_Cover_(LULC).geojson",
       "/datasets/State_Parks.geojson"] ∧
    combinedEverythingUrls.length = 7 ∧
    combinedEverythingUrls.Nodup ∧
    (∀ r1 r2 r3 r4 r5 r6 r7 : FetchResult,
      ((cemFetch r1 r2 r3 r4 r5 r6 r7).stored).isSome =
        (r1.isSuccess && r2.isSuccess && r3.isSuccess && r4.isSuccess &&
         r5.isSuccess && r6.isSuccess && r7.isSuccess)) :=
  ⟨rfl, rfl, by decide, cemFetch_stored_isSome⟩

/-- Arithmetic mean of the latitudes of a coordinate list, the
`reduce((s, c) => s + c[1], 0) / length` pattern of the source (NaN on an
empty list). -/
def meanLat (cs : List Coordinate) : Option ℚ :=
  jsDiv (sumLat cs) cs.length

/-- Arithmetic mean of the longitudes of a coordinate list. -/
def meanLon (cs : List Coordinate) : Option ℚ :=
  jsDiv (sumLon cs) cs.length

theorem sumLat_eq_sum_map (cs : List Coordinate) :
    sumLat cs = (cs.map Coordinate.lat).sum := by
  have key : ∀ (l : List Coordinate) (a : ℚ),
      l.foldl (fun s c => s + c.lat) a = a + (l.map Coordinate.lat).sum := by
    intro l
    induction l with
    | nil => intro a; simp
    | cons c rest ih =>
      intro a
      simp [List.foldl_cons, ih, add_assoc]
  simpa using key cs 0

theorem sumLon_eq_sum_map (cs : List Coordinate) :
    sumLon cs = (cs.map Coordinate.lon).sum := by
  have key : ∀ (l : List Coordinate) (a : ℚ),
      l.foldl (fun s c => s + c.lon) a = a + (l.map Coordinate.lon).sum := by
    intro l
    induction l with
    | nil => intro a; simp
    | cons c rest ih =>
      intro a
      simp [List.foldl_cons, ih, add_assoc]
  simpa using key cs 0

/-- Feature whose multipolygon has two polygons with different latitudes: its
first-ring centroid differs from the mean of all its boundary coordinates. -/
def c1MultiFeature : Feature :=
  ⟨Geometry.multiPolygon [[[⟨0, 0⟩]], [[⟨0, 2⟩]]], []⟩

/-- C1 counterexample: for a MultiPolygon with two polygons, the per-feature
centroid the code computes (mean of the FIRST ring of the FIRST polygon only)
is 0, while the arithmetic mean of all the shape's boundary coordinates is 1,
so the per-feature centroid does not include every boundary coordinate. -/
theorem c1_counterexample :
    featureHoverLat c1MultiFeature = some 0 ∧
    meanLat (gatherCoords c1MultiFeature.geometry) = some 1 ∧
    featureHoverLat c1MultiFeature ≠ meanLat (gatherCoords c1MultiFeature.geometry) := by
  have h0 : featureHoverLat c1MultiFeature = some 0 := by
    norm_num [featureHoverLat, c1MultiFeature, hoverRing, sumLat, jsDiv]
  have h1 : meanLat (gatherCoords c1MultiFeature.geometry) = some 1 := by
    norm_num [meanLat, gatherCoords, c1MultiFeature, sumLat, jsDiv]
  refine ⟨h0, h1, ?_⟩
  rw [h0, h1]
  norm_num

/-- C1 amended: the overall map center (used to center the initial view) is
the arithmetic mean of ALL boundary coordinates of the selected features —
every ring of every polygon; the per-feature centroid is the arithmetic mean
of only the first ring of the first polygon, and it is used to place the
invisible hover markers, not to center the map. -/
theorem c1_amended_centroids :
    ∀ (f : Feature) (fs : List Feature) (cs : List Coordinate),
      featureHoverLat f = meanLat (hoverRing f.geometry) ∧
      featureHoverLon f = meanLon (hoverRing f.geometry) ∧
      (0 < fs.length →
        combinedMapCenter fs =
          (jsDiv ((allCoordsOf fs).map Coordinate.lat).sum (allCoordsOf fs).length,
           jsDiv ((allCoordsOf fs).map Coordinate.lon).sum (allCoordsOf fs).length)) ∧
      sumLat cs = (cs.map Coordinate.lat).sum ∧
      sumLon cs = (cs.map Coordinate.lon).sum := by
  intro f fs cs
  refine ⟨rfl, rfl, ?_, sumLat_eq_sum_map cs, sumLon_eq_sum_map cs⟩
  intro h
  unfold combinedMapCenter
  rw [if_pos h, sumLat_eq_sum_map, sumLon_eq_sum_map]

/-- Witness for `c1_amended_centroids` at a concrete selected-feature list. -/
theorem c1_amended_centroids_witness :
    combinedMapCenter [⟨Geometry.polygon [[⟨4, 8⟩, ⟨6, 10⟩]], []⟩] =
      (jsDiv ((allCoordsOf [⟨Geometry.polygon [[⟨4, 8⟩, ⟨6, 10⟩]], []⟩]).map
          Coordinate.lat).sum
        (allCoordsOf [⟨Geometry.polygon [[⟨4, 8⟩, ⟨6, 10⟩]], []⟩]).length,
       jsDiv ((allCoordsOf [⟨Geometry.polygon [[⟨4, 8⟩, ⟨6, 10⟩]], []⟩]).map
          Coordinate.lon).sum
        (allCoordsOf [⟨Geometry.polygon [[⟨4, 8⟩, ⟨6, 10⟩]], []⟩]).length) :=
  (c1_amended_centroids ⟨Geometry.polygon [[⟨4, 8⟩, ⟨6, 10⟩]], []⟩
    [⟨Geometry.polygon [[⟨4, 8⟩, ⟨6, 10⟩]], []⟩] []).2.2.1 (by decide)

/-- Selected feature whose polygon has no rings: it contributes no
coordinates, yet it counts as a selected feature. -/
def c8EmptyPolygonFeature : Feature := ⟨Geometry.polygon [], []⟩

/-- C8 counterexample: in `CombinedMap` the default-center guard tests the
number of selected FEATURES, not the gathered coordinate list — with one
selected feature whose polygon has no rings the gathered coordinate list is
empty, but the center is NaN (0/0, modelled `none`), not the default
latitude 20.7 / longitude -156. -/
theorem c8_counterexample :
    allCoordsOf [c8EmptyPolygonFeature] = [] ∧
    combinedMapCenter [c8EmptyPolygonFeature] = (none, none) ∧
    combinedMapCenter [c8EmptyPolygonFeature] ≠ (some 20.7, some (-156.0)) := by
  refine ⟨rfl, rfl, ?_⟩
  intro h
  simp [combinedMapCenter, allCoordsOf, gatherCoords, c8EmptyPolygonFeature, jsDiv] at h

/-- C8 amended: in `CombinedEverythingMap` the claim holds as stated — an
empty gathered-coordinate list gives exactly the default center 20.7 / -156,
and a non-empty one gives the arithmetic mean of the gathered coordinates; in
`CombinedMap` the default is used when the selected-feature list is empty and
the mean when the coordinate list is non-empty, but selected features that
contribute no coordinates give a NaN center rather than the default. -/
theorem c8_amended_center :
    ∀ (fs : List Feature),
      (allCoordsOf fs = [] → cemCenter fs = (some 20.7, some (-156.0))) ∧
      (allCoordsOf fs ≠ [] →
        cemCenter fs = (meanLat (allCoordsOf fs), meanLon (allCoordsOf fs)) ∧
        combinedMapCenter fs = (meanLat (allCoordsOf fs), meanLon (allCoordsOf fs)) ∧
        ∃ q1 q2 : ℚ, cemCenter fs = (some q1, some q2)) ∧
      (fs = [] → combinedMapCenter fs = (some 20.7, some (-156.0))) := by
  intro fs
  refine ⟨?_, ?_, ?_⟩
  · intro h
    simp [cemCenter, h]
  · intro h
    have hlen : 0 < (allCoordsOf fs).length := List.length_pos.mpr h
    have hfs : fs ≠ [] := by
      intro he
      subst he
      exact h rfl
    have hfslen : 0 < fs.length := List.length_pos.mpr hfs
    have hne : (allCoordsOf fs).length ≠ 0 := Nat.pos_iff_ne_zero.mp hlen
    refine ⟨?_, ?_, ?_⟩
    · unfold cemCenter
      rw [if_pos hlen]
      rfl
    · unfold combinedMapCenter
      rw [if_pos hfslen]
      rfl
    · refine ⟨sumLat (allCoordsOf fs) / (allCoordsOf fs).length,
        sumLon (allCoordsOf fs) / (allCoordsOf fs).length, ?_⟩
      unfold cemCenter jsDiv
      rw [if_pos hlen, if_neg hne, if_neg hne]
  · intro h
    subst h
    rfl

/-- Witness for `c8_amended_center` at concrete inputs: no data selected, and
one polygon feature with coordinates. -/
theorem c8_amended_center_witness :
    cemCenter [] = (some 20.7, some (-156.0)) ∧
    combinedMapCenter [] = (some 20.7, some (-156.0)) ∧
    cemCenter [⟨Geometry.polygon [[⟨3, 4⟩]], []⟩] =
      (meanLat (allCoordsOf [⟨Geometry.polygon [[⟨3, 4⟩]], []⟩]),
       meanLon (allCoordsOf [⟨Geometry.polygon [[⟨3, 4⟩]], []⟩])) :=
  ⟨(c8_amended_center []).1 rfl,
   (c8_amended_center []).2.2 rfl,
   ((c8_amended_center [⟨Geometry.polygon [[⟨3, 4⟩]], []⟩]).2.1 (by decide)).1⟩

theorem urbanPalette_getD_mem (n : ℕ) :
    urbanPalette.getD (n % urbanPalette.length) "" ∈ urbanPalette := by
  have h : n % urbanPalette.length < urbanPalette.length :=
    Nat.mod_lt _ (by decide)
  rw [List.getD_eq_getElem _ _ h]
  exact List.getElem_mem h

theorem urbanPalette_mem_ne_empty (c : String) (h : c ∈ urbanPalette) : c ≠ "" := by
  simp [urbanPalette] at h
  rcases h with h | h | h | h | h | h | h | h | h | h <;> subst h <;> decide

theorem lookupTable_eq_none_iff (t : List (String × String)) (k : String) :
    lookupTable t k = none ↔ k ∉ t.map Prod.fst := by
  unfold lookupTable
  simp [List.find?_eq_none, List.mem_map]
  constructor
  · intro h x hx
    exact h k x hx rfl
  · intro h a b hab he
    subst he
    exact h b hab

theorem lookupTable_mem_keys (t : List (String × String)) (k c : String)
    (h : lookupTable t k = some c) : k ∈ t.map Prod.fst := by
  unfold lookupTable at h
  cases hf : List.find? (fun kv => kv.1 = k) t with
  | none => rw [hf] at h; simp at h
  | some kv =>
    have hm := List.mem_of_find?_eq_some hf
    have hp := List.find?_some hf
    simp at hp
    exact hp ▸ List.mem_map_of_mem Prod.fst hm

/-- Well-formedness of the first urban pass state: the counter equals the
table size, keys are distinct, and the entry at position k carries the
palette color k mod 10 — exactly what `paletteIndex % urbanPalette.length`
produces. -/
def AccWf (acc : GeoidAcc) : Prop :=
  acc.idx = acc.table.length ∧
  (acc.table.map Prod.fst).Nodup ∧
  ∀ (k : ℕ) (h : k < acc.table.length),
    (acc.table[k]).2 = urbanPalette.getD (k % urbanPalette.length) ""

theorem accWf_value_ne_empty (acc : GeoidAcc) (hwf : AccWf acc) (c : String)
    (hc : c ∈ acc.table.map Prod.snd) : c ≠ "" := by
  obtain ⟨-, -, hval⟩ := hwf
  rw [List.mem_map] at hc
  obtain ⟨kv, hkv, he⟩ := hc
  rw [List.mem_iff_getElem] at hkv
  obtain ⟨k, hk, hget⟩ := hkv
  have := hval k hk
  rw [hget, he] at this
  rw [this]
  exact urbanPalette_mem_ne_empty _ (urbanPalette_getD_mem k)

theorem jsFalsyStr_lookup_iff (acc : GeoidAcc) (hwf : AccWf acc) (id : String) :
    jsFalsyStr (lookupTable acc.table id) = true ↔ id ∉ acc.table.map Prod.fst := by
  cases hl : lookupTable acc.table id with
  | none =>
    simp [jsFalsyStr, (lookupTable_eq_none_iff _ _).mp hl]
  | some c =>
    have hne : c ≠ "" :=
      accWf_value_ne_empty acc hwf c (lookupTable_mem_values _ _ _ hl)
    have hmem : id ∈ acc.table.map Prod.fst := lookupTable_mem_keys _ _ _ hl
    simp [jsFalsyStr, hne, hmem]

theorem geoidStepId_wf (acc : GeoidAcc) (id : String) (hwf : AccWf acc) :
    AccWf (geoidStepId acc id) ∧
    (geoidStepId acc id).table.map Prod.fst =
      (if id ∈ acc.table.map Prod.fst then acc.table.map Prod.fst
       else acc.table.map Prod.fst ++ [id]) := by
  obtain ⟨hidx, hnodup, hval⟩ := hwf
  by_cases hmem : id ∈ acc.table.map Prod.fst
  · have hfalsy : jsFalsyStr (lookupTable acc.table id) = false := by
      have := jsFalsyStr_lookup_iff acc ⟨hidx, hnodup, hval⟩ id
      simp [hmem] at this
      exact this
    unfold geoidStepId
    rw [hfalsy]
    simp [hmem]
    exact ⟨hidx, hnodup, hval⟩
  · have hfalsy : jsFalsyStr (lookupTable acc.table id) = true :=
      (jsFalsyStr_lookup_iff acc ⟨hidx, hnodup, hval⟩ id).mpr hmem
    unfold geoidStepId
    rw [hfalsy]
    simp only [if_true, hmem, if_false]
    refine ⟨⟨?_, ?_, ?_⟩, ?_⟩
    · simp [hidx]
    · simp only [List.map_append]
      rw [List.nodup_append]
      refine ⟨hnodup, by simp, ?_⟩
      intro a ha hb
      simp at hb
      subst hb
      exact hmem ha
    · intro k hk
      simp only [List.length_append, List.length_cons, List.length_nil] at hk
      by_cases hlt : k < acc.table.length
      · rw [List.getElem_append_left hlt]
        exact hval k hlt
      · have hke : k = acc.table.length := by omega
        subst hke
        rw [List.getElem_append_right (le_refl _)]
        simp [hidx]
    · simp

/-- Fold of the first urban pass over already-resolved ids. -/
def idFold (ids : List String) (acc : GeoidAcc) : GeoidAcc :=
  ids.foldl geoidStepId acc

/-- Distinct ids in order of first occurrence, accumulated onto a seed list —
the key order the `geoidToColor` record acquires. -/
def distinctFrom (seed : List String) (ids : List String) : List String :=
  ids.foldl (fun ks x => if x ∈ ks then ks else ks ++ [x]) seed

/-- Distinct ids of a list in order of first occurrence. -/
def distinctFirst (ids : List String) : List String :=
  distinctFrom [] ids

theorem idFold_wf (ids : List String) :
    ∀ (acc : GeoidAcc), AccWf acc →
      AccWf (idFold ids acc) ∧
      (idFold ids acc).table.map Prod.fst =
        distinctFrom (acc.table.map Prod.fst) ids := by
  induction ids with
  | nil => intro acc hwf; exact ⟨hwf, rfl⟩
  | cons id rest ih =>
    intro acc hwf
    obtain ⟨hwf1, hkeys1⟩ := geoidStepId_wf acc id hwf
    obtain ⟨hwf2, hkeys2⟩ := ih (geoidStepId acc id) hwf1
    refine ⟨hwf2, ?_⟩
    show (idFold rest (geoidStepId acc id)).table.map Prod.fst = _
    rw [hkeys2, hkeys1]
    rfl

theorem buildGeoidTable_eq_idFold (ps : List Props)
    (h : ∀ x ∈ ps, (urbanGeoid x).isSome) :
    buildGeoidTable ps = idFold (ps.map (fun x => (urbanGeoid x).getD "")) ⟨[], 0⟩ := by
  suffices key : ∀ (l : List Props) (acc : GeoidAcc),
      (∀ x ∈ l, (urbanGeoid x).isSome) →
      l.foldl geoidStep acc =
        (l.map (fun x => (urbanGeoid x).getD "")).foldl geoidStepId acc by
    exact key ps ⟨[], 0⟩ h
  intro l
  induction l with
  | nil => intro acc h0; rfl
  | cons p rest ih =>
    intro acc hall
    have hp : (urbanGeoid p).isSome = true := hall p (by simp)
    obtain ⟨g, hg⟩ := Option.isSome_iff_exists.mp hp
    simp only [List.map_cons, List.foldl_cons]
    have hstep : geoidStep acc p = geoidStepId acc ((urbanGeoid p).getD "") := by
      unfold geoidStep
      rw [show urbanId p acc.idx = (urbanGeoid p).getD "" from by simp [urbanId, hg]]
    rw [hstep]
    exact ih _ (fun x hx => hall x (by simp [hx]))

theorem lookupTable_cons_self (k0 v0 : String) (t : List (String × String)) :
    lookupTable ((k0, v0) :: t) k0 = some v0 := by
  unfold lookupTable
  rw [List.find?_cons_of_pos _ (by simp)]
  rfl

theorem lookupTable_cons_ne (k0 v0 : String) (t : List (String × String))
    (g : String) (h : k0 ≠ g) :
    lookupTable ((k0, v0) :: t) g = lookupTable t g := by
  unfold lookupTable
  rw [List.find?_cons_of_neg _ (by simp [h])]

theorem mem_distinctFrom_seed (ids : List String) :
    ∀ (seed : List String) (x : String), x ∈ seed → x ∈ distinctFrom seed ids := by
  induction ids with
  | nil => intro seed x hx; exact hx
  | cons id rest ih =>
    intro seed x hx
    show x ∈ distinctFrom (if id ∈ seed then seed else seed ++ [id]) rest
    by_cases hm : id ∈ seed
    · rw [if_pos hm]
      exact ih seed x hx
    · rw [if_neg hm]
      exact ih _ x (List.mem_append_left _ hx)

theorem mem_distinctFrom (ids : List String) :
    ∀ (seed : List String) (x : String), x ∈ ids → x ∈ distinctFrom seed ids := by
  induction ids with
  | nil => intro seed x hx; simp at hx
  | cons id rest ih =>
    intro seed x hx
    show x ∈ distinctFrom (if id ∈ seed then seed else seed ++ [id]) rest
    rcases List.mem_cons.mp hx with he | hr
    · subst he
      by_cases hm : x ∈ seed
      · rw [if_pos hm]
        exact mem_distinctFrom_seed rest seed x hm
      · rw [if_neg hm]
        exact mem_distinctFrom_seed rest _ x (by simp)
    · by_cases hm : id ∈ seed
      · rw [if_pos hm]
        exact ih seed x hr
      · rw [if_neg hm]
        exact ih _ x hr

theorem lookup_positional :
    ∀ (t : List (String × String)) (off : ℕ) (g : String),
      (∀ (k : ℕ) (h : k < t.length),
        (t[k]).2 = urbanPalette.getD ((off + k) % urbanPalette.length) "") →
      g ∈ t.map Prod.fst →
      lookupTable t g =
        some (urbanPalette.getD
          ((off + (t.map Prod.fst).indexOf g) % urbanPalette.length) "") := by
  intro t
  induction t with
  | nil => intro off g hval hg; simp at hg
  | cons kv rest ih =>
    intro off g hval hg
    obtain ⟨k0, v0⟩ := kv
    by_cases he : k0 = g
    · subst he
      have h0 := hval 0 (by simp)
      simp at h0
      rw [lookupTable_cons_self, h0]
      simp [List.indexOf_cons_self]
    · have hg2 : g ∈ rest.map Prod.fst := by
        simp only [List.map_cons, List.mem_cons] at hg
        rcases hg with h | h
        · exact absurd h.symm he
        · exact h
      have hval2 : ∀ (k : ℕ) (h : k < rest.length),
          (rest[k]).2 = urbanPalette.getD (((off + 1) + k) % urbanPalette.length) "" := by
        intro k hk
        have hv := hval (k + 1) (by simpa using Nat.succ_lt_succ hk)
        have harith : off + (k + 1) = (off + 1) + k := by omega
        simpa [harith] using hv
      have hrec := ih (off + 1) g hval2 hg2
      rw [lookupTable_cons_ne _ _ _ _ he, hrec]
      have hidx : ((k0 :: rest.map Prod.fst).indexOf g) = (rest.map Prod.fst).indexOf g + 1 := by
        rw [List.indexOf_cons_ne _ he]
      simp only [List.map_cons, hidx]
      have harith2 : off + ((rest.map Prod.fst).indexOf g + 1) =
          (off + 1) + (rest.map Prod.fst).indexOf g := by omega
      rw [harith2]

theorem buildGeoidTable_values_mem :
    ∀ (ps : List Props) (acc : GeoidAcc),
      (∀ c ∈ acc.table.map Prod.snd, c ∈ urbanPalette) →
      ∀ c ∈ ((ps.foldl geoidStep acc).table).map Prod.snd, c ∈ urbanPalette := by
  intro ps
  induction ps with
  | nil => intro acc h c hc; exact h c hc
  | cons p rest ih =>
    intro acc h c hc
    refine ih (geoidStep acc p) ?_ c hc
    intro c2 hc2
    unfold geoidStep geoidStepId at hc2
    by_cases hb : jsFalsyStr (lookupTable acc.table (urbanId p acc.idx)) = true
    · rw [if_pos hb] at hc2
      simp only [List.map_append] at hc2
      rcases List.mem_append.mp hc2 with hl | hr
      · exact h c2 hl
      · simp only [List.map_cons, List.map_nil, List.mem_singleton] at hr
        subst hr
        exact urbanPalette_getD_mem _
    · rw [if_neg hb] at hc2
      exact h c2 hc2

/-- C9: in the urban color assignment, two features with the same resolved
GEOID20/geoid20 key get the same fill color; every assigned fill color is one
of the ten fixed palette entries; and when every feature has a GEOID key, the
color of a feature is the palette entry indexed by the position of its
GEOID's first occurrence among the distinct GEOIDs, cycling modulo the
palette length. -/
theorem c9_urban_geoid_colors :
    ∀ (ps : List Props) (p q : Props) (g : String),
      (urbanGeoid p = some g → urbanGeoid q = some g →
        urbanFillColor (buildGeoidTable ps) p = urbanFillColor (buildGeoidTable ps) q) ∧
      urbanFillColor (buildGeoidTable ps) p ∈ urbanPalette ∧
      ((∀ x ∈ ps, (urbanGeoid x).isSome) → p ∈ ps → urbanGeoid p = some g →
        urbanFillColor (buildGeoidTable ps) p =
          urbanPalette.getD
            (((distinctFirst (ps.map (fun x => (urbanGeoid x).getD ""))).indexOf g)
              % urbanPalette.length) "") := by
  intro ps p q g
  refine ⟨?_, ?_, ?_⟩
  · intro hp hq
    unfold urbanFillColor
    rw [show urbanId p (buildGeoidTable ps).idx = g from by simp [urbanId, hp],
      show urbanId q (buildGeoidTable ps).idx = g from by simp [urbanId, hq]]
  · cases hl : lookupTable (buildGeoidTable ps).table
        (urbanId p (buildGeoidTable ps).idx) with
    | some c =>
      unfold urbanFillColor
      rw [hl]
      exact buildGeoidTable_values_mem ps ⟨[], 0⟩ (by simp) c
        (lookupTable_mem_values _ _ _ hl)
    | none =>
      unfold urbanFillColor
      rw [hl]
      show urbanPalette.getD 0 "" ∈ urbanPalette
      decide
  · intro hall hp hg
    have heq := buildGeoidTable_eq_idFold ps hall
    have hwf0 : AccWf ⟨[], 0⟩ := ⟨rfl, List.nodup_nil, by intro k h; simp at h⟩
    obtain ⟨hwf, hkeys⟩ :=
      idFold_wf (ps.map (fun x => (urbanGeoid x).getD "")) ⟨[], 0⟩ hwf0
    obtain ⟨hidx, hnodup, hval⟩ := hwf
    have hgin : g ∈ ps.map (fun x => (urbanGeoid x).getD "") := by
      rw [List.mem_map]
      exact ⟨p, hp, by simp [hg]⟩
    have hginkeys : g ∈ (idFold (ps.map (fun x => (urbanGeoid x).getD ""))
        ⟨[], 0⟩).table.map Prod.fst := by
      rw [hkeys]
      exact mem_distinctFrom _ [] g hgin
    have hlook := lookup_positional _ 0 g (by intro k h; simpa using hval k h) hginkeys
    unfold urbanFillColor
    rw [heq]
    rw [show urbanId p (idFold (ps.map (fun x => (urbanGeoid x).getD ""))
        ⟨[], 0⟩).idx = g from by simp [urbanId, hg]]
    rw [hlook, hkeys]
    simp [distinctFirst]

/-- Witness for `c9_urban_geoid_colors` on a three-feature list in which the
key A occurs first, B second, and A again. -/
theorem c9_urban_geoid_colors_witness :
    urbanFillColor (buildGeoidTable [[("GEOID20", JValue.str "A")],
        [("geoid20", JValue.str "B")], [("GEOID20", JValue.str "A")]])
      [("GEOID20", JValue.str "A")] =
    urbanFillColor (buildGeoidTable [[("GEOID20", JValue.str "A")],
        [("geoid20", JValue.str "B")], [("GEOID20", JValue.str "A")]])
      [("geoid20", JValue.str "A"), ("pop", JValue.num 1)] ∧
    urbanFillColor (buildGeoidTable [[("GEOID20", JValue.str "A")],
        [("geoid20", JValue.str "B")], [("GEOID20", JValue.str "A")]])
      [("GEOID20", JValue.str "A")] ∈ urbanPalette ∧
    urbanFillColor (buildGeoidTable [[("GEOID20", JValue.str "A")],
        [("geoid20", JValue.str "B")], [("GEOID20", JValue.str "A")]])
      [("GEOID20", JValue.str "A")] =
      urbanPalette.getD
        (((distinctFirst ([[("GEOID20", JValue.str "A")],
            [("geoid20", JValue.str "B")], [("GEOID20", JValue.str "A")]].map
              (fun x => (urbanGeoid x).getD ""))).indexOf "A")
          % urbanPalette.length) "" := by
  have h := c9_urban_geoid_colors
    [[("GEOID20", JValue.str "A")], [("geoid20", JValue.str "B")],
     [("GEOID20", JValue.str "A")]]
    [("GEOID20", JValue.str "A")]
    [("geoid20", JValue.str "A"), ("pop", JValue.num 1)] "A"
  exact ⟨h.1 (by decide) (by decide), h.2.1,
    h.2.2 (by decide) (by decide) (by decide)⟩

/-- Datasets of the full combined map. -/
inductive DatasetId where
  | plants
  | habitat
  | urban
  | roads
  | hotels
  | lulc
  | stateParks
deriving DecidableEq, Repr

/-- Features the component holds for a dataset (empty until loaded). -/
def datasetFeatures (i : DatasetId) (d : Loaded) : List Feature :=
  match i with
  | DatasetId.plants => featuresOfOpt d.plants
  | DatasetId.habitat => featuresOfOpt d.habitat
  | DatasetId.urban => featuresOfOpt d.urban
  | DatasetId.roads => featuresOfOpt d.roads
  | DatasetId.hotels => featuresOfOpt d.hotels
  | DatasetId.lulc => featuresOfOpt d.lulc
  | DatasetId.stateParks => featuresOfOpt d.stateParks

/-- Visibility toggle of a dataset. -/
def datasetOn (i : DatasetId) (t : Toggles) : Bool :=
  match i with
  | DatasetId.plants => t.plants
  | DatasetId.habitat => t.habitat
  | DatasetId.urban => t.urban
  | DatasetId.roads => t.roads
  | DatasetId.hotels => t.hotels
  | DatasetId.lulc => t.lulc
  | DatasetId.stateParks => t.stateParks

/-- Occurrence of a feature in the source of some mapbox layer of a
configuration. -/
def occursInLayers (f : Feature) (ls : List MapboxLayer) : Prop :=
  ∃ L ∈ ls, f ∈ L.source

/-- Inclusion of a dataset feature in the configuration handed to Plotly:
polygonal and roads features are included through mapbox layer sources;
hotel features are included through the Hotels marker trace. -/
def includedInConfig (i : DatasetId) (f : Feature) (t : Toggles) (d : Loaded) : Prop :=
  match i with
  | DatasetId.hotels =>
    ∃ tr ∈ cemTraces t d, tr.name = some "Hotels" ∧ pointLat f ∈ tr.lat
  | _ => occursInLayers f (cemMapboxLayers t d)

theorem occursInLayers_append (f : Feature) (a b : List MapboxLayer) :
    occursInLayers f (a ++ b) ↔ occursInLayers f a ∨ occursInLayers f b := by
  unfold occursInLayers
  constructor
  · rintro ⟨L, hL, hf⟩
    rcases List.mem_append.mp hL with h | h
    · exact Or.inl ⟨L, h, hf⟩
    · exact Or.inr ⟨L, h, hf⟩
  · rintro (⟨L, hL, hf⟩ | ⟨L, hL, hf⟩)
    · exact ⟨L, List.mem_append_left _ hL, hf⟩
    · exact ⟨L, List.mem_append_right _ hL, hf⟩

theorem occursInLayers_fillLayers (f : Feature) (b : Bool)
    (dopt : Option FeatureCollection) :
    occursInLayers f (fillLayers b dopt) ↔ (b = true ∧ f ∈ featuresOfOpt dopt) := by
  unfold fillLayers
  by_cases hb : b = true
  · rw [if_pos hb]
    unfold occursInLayers
    constructor
    · rintro ⟨L, hL, hf⟩
      rw [List.mem_map] at hL
      obtain ⟨x, hx, he⟩ := hL
      subst he
      simp [fillLayerOf] at hf
      subst hf
      exact ⟨hb, hx⟩
    · rintro ⟨-, hf⟩
      exact ⟨fillLayerOf f, List.mem_map_of_mem _ hf, by simp [fillLayerOf]⟩
  · rw [if_neg hb]
    simp [occursInLayers, hb]

theorem occursInLayers_roadsLayers (f : Feature) (b : Bool)
    (dopt : Option FeatureCollection) :
    occursInLayers f (roadsLayers b dopt) ↔
      ((b && dopt.isSome) = true ∧ f ∈ featuresOfOpt dopt) := by
  unfold roadsLayers
  by_cases hb : (b && dopt.isSome) = true
  · rw [if_pos hb]
    unfold occursInLayers
    constructor
    · rintro ⟨L, hL, hf⟩
      simp at hL
      subst hL
      exact ⟨hb, hf⟩
    · rintro ⟨-, hf⟩
      exact ⟨⟨featuresOfOpt dopt, "line", some (JValue.str "#000000")⟩, by simp, hf⟩
  · rw [if_neg hb]
    simp [occursInLayers, hb]

theorem mem_pick (f : Feature) (b : Bool) (dopt : Option FeatureCollection) :
    f ∈ pick b dopt ↔ (b = true ∧ f ∈ featuresOfOpt dopt) := by
  unfold pick
  by_cases hb : b = true
  · rw [if_pos hb]
    simp [hb]
  · rw [if_neg hb]
    simp [hb]

theorem occursInLayers_outline (f : Feature) (t : Toggles) (d : Loaded) :
    occursInLayers f
      (if 0 < (cemOutlineFeatures t d).length then
        [⟨cemOutlineFeatures t d, "line", some (JValue.str "black")⟩]
       else []) ↔ f ∈ cemOutlineFeatures t d := by
  by_cases h : 0 < (cemOutlineFeatures t d).length
  · rw [if_pos h]
    unfold occursInLayers
    constructor
    · rintro ⟨L, hL, hf⟩
      simp at hL
      subst hL
      exact hf
    · intro hf
      exact ⟨⟨cemOutlineFeatures t d, "line", some (JValue.str "black")⟩, by simp, hf⟩
  · rw [if_neg h]
    have he : cemOutlineFeatures t d = [] :=
      List.length_eq_zero.mp (Nat.eq_zero_of_not_pos h)
    simp [occursInLayers, he]

set_option maxHeartbeats 1000000 in
theorem occursInLayers_cem (f : Feature) (t : Toggles) (d : Loaded) :
    occursInLayers f (cemMapboxLayers t d) ↔
      ((t.plants = true ∧ f ∈ featuresOfOpt d.plants) ∨
       (t.habitat = true ∧ f ∈ featuresOfOpt d.habitat) ∨
       (t.urban = true ∧ f ∈ featuresOfOpt d.urban) ∨
       ((t.roads && (d.roads).isSome) = true ∧ f ∈ featuresOfOpt d.roads) ∨
       (t.lulc = true ∧ f ∈ featuresOfOpt d.lulc) ∨
       (t.stateParks = true ∧ f ∈ featuresOfOpt d.stateParks)) := by
  unfold cemMapboxLayers
  simp only [occursInLayers_append, occursInLayers_fillLayers,
    occursInLayers_roadsLayers, occursInLayers_outline]
  unfold cemOutlineFeatures
  simp only [List.mem_append, mem_pick]
  tauto

theorem hotels_trace_iff (t : Toggles) (d : Loaded) (f : Feature)
    (hf : f ∈ featuresOfOpt d.hotels) :
    (∃ tr ∈ cemTraces t d, tr.name = some "Hotels" ∧ pointLat f ∈ tr.lat) ↔
      t.hotels = true := by
  have hsome : (d.hotels).isSome = true := by
    cases hd : d.hotels with
    | none => rw [hd] at hf; simp [featuresOfOpt] at hf
    | some fc => rfl
  constructor
  · rintro ⟨tr, htr, hname, hlat⟩
    unfold cemTraces at htr
    rcases List.mem_append.mp htr with h4 | hD
    · rcases List.mem_append.mp h4 with h3 | hC
      · rcases List.mem_append.mp h3 with h2 | hB
        · rcases List.mem_append.mp h2 with h1 | hA
          · simp at h1
            subst h1
            simp [dummyTrace] at hname
          · by_cases hcond : (t.urban && (d.urban).isSome) = true
            · rw [if_pos hcond] at hA
              simp at hA
              subst hA
              simp [centroidTrace] at hname
            · rw [if_neg hcond] at hA
              simp at hA
        · by_cases hcond : (t.hotels && (d.hotels).isSome) = true
          · exact (Bool.and_eq_true _ _).mp hcond |>.1
          · rw [if_neg hcond] at hB
            simp at hB
      · by_cases hcond : ((t.plants && (d.plants).isSome) ||
            (t.habitat && (d.habitat).isSome)) = true
        · rw [if_pos hcond] at hC
          simp at hC
          subst hC
          simp [centroidTrace] at hname
        · rw [if_neg hcond] at hC
          simp at hC
    · by_cases hcond : ((t.lulc && (d.lulc).isSome) ||
          (t.stateParks && (d.stateParks).isSome)) = true
      · rw [if_pos hcond] at hD
        simp at hD
        subst hD
        simp [centroidTrace] at hname
      · rw [if_neg hcond] at hD
        simp at hD
  · intro ht
    refine ⟨⟨some "Hotels", (featuresOfOpt d.hotels).map pointLat,
      (featuresOfOpt d.hotels).map pointLon,
      (featuresOfOpt d.hotels).map hoverTextOf⟩, ?_, rfl, ?_⟩
    · unfold cemTraces
      have hcond : (t.hotels && (d.hotels).isSome) = true := by
        rw [ht, hsome]
        rfl
      apply List.mem_append_left
      apply List.mem_append_left
      apply List.mem_append_right
      rw [if_pos hcond]
      simp
    · exact List.mem_map_of_mem pointLat hf

/-- C7: for every combination of toggle states and loaded datasets, a
feature of one dataset (not shared with any other dataset) is included in
the layer/trace configuration handed to the mapping widget exactly when that
dataset's toggle is on; the right-hand side mentions no other dataset's
toggle, so toggling one layer cannot add or remove another dataset's
features. -/
theorem c7_layer_toggle_iff :
    ∀ (t : Toggles) (d : Loaded) (i : DatasetId) (f : Feature),
      f ∈ datasetFeatures i d →
      (∀ j : DatasetId, j ≠ i → f ∉ datasetFeatures j d) →
      (includedInConfig i f t d ↔ datasetOn i t = true) := by
  intro t d i f hf hdisj
  cases i with
  | hotels => exact hotels_trace_iff t d f hf
  | plants =>
    have hhab : f ∉ featuresOfOpt d.habitat := hdisj DatasetId.habitat (by decide)
    have hurb : f ∉ featuresOfOpt d.urban := hdisj DatasetId.urban (by decide)
    have hroa : f ∉ featuresOfOpt d.roads := hdisj DatasetId.roads (by decide)
    have hlul : f ∉ featuresOfOpt d.lulc := hdisj DatasetId.lulc (by decide)
    have hsp : f ∉ featuresOfOpt d.stateParks := hdisj DatasetId.stateParks (by decide)
    have hf2 : f ∈ featuresOfOpt d.plants := hf
    show occursInLayers f (cemMapboxLayers t d) ↔ t.plants = true
    rw [occursInLayers_cem]
    simp [hhab, hurb, hroa, hlul, hsp, hf2]
  | habitat =>
    have hpla : f ∉ featuresOfOpt d.plants := hdisj DatasetId.plants (by decide)
    have hurb : f ∉ featuresOfOpt d.urban := hdisj DatasetId.urban (by decide)
    have hroa : f ∉ featuresOfOpt d.roads := hdisj DatasetId.roads (by decide)
    have hlul : f ∉ featuresOfOpt d.lulc := hdisj DatasetId.lulc (by decide)
    have hsp : f ∉ featuresOfOpt d.stateParks := hdisj DatasetId.stateParks (by decide)
    have hf2 : f ∈ featuresOfOpt d.habitat := hf
    show occursInLayers f (cemMapboxLayers t d) ↔ t.habitat = true
    rw [occursInLayers_cem]
    simp [hpla, hurb, hroa, hlul, hsp, hf2]
  | urban =>
    have hpla : f ∉ featuresOfOpt d.plants := hdisj DatasetId.plants (by decide)
    have hhab : f ∉ featuresOfOpt d.habitat := hdisj DatasetId.habitat (by decide)
    have hroa : f ∉ featuresOfOpt d.roads := hdisj DatasetId.roads (by decide)
    have hlul : f ∉ featuresOfOpt d.lulc := hdisj DatasetId.lulc (by decide)
    have hsp : f ∉ featuresOfOpt d.stateParks := hdisj DatasetId.stateParks (by decide)
    have hf2 : f ∈ featuresOfOpt d.urban := hf
    show occursInLayers f (cemMapboxLayers t d) ↔ t.urban = true
    rw [occursInLayers_cem]
    simp [hpla, hhab, hroa, hlul, hsp, hf2]
  | roads =>
    have hf2 : f ∈ featuresOfOpt d.roads := hf
    have hsome : (d.roads).isSome = true := by
      cases hd : d.roads with
      | none => rw [hd] at hf2; simp [featuresOfOpt] at hf2
      | some fc => rfl
    have hpla : f ∉ featuresOfOpt d.plants := hdisj DatasetId.plants (by decide)
    have hhab : f ∉ featuresOfOpt d.habitat := hdisj DatasetId.habitat (by decide)
    have hurb : f ∉ featuresOfOpt d.urban := hdisj DatasetId.urban (by decide)
    have hlul : f ∉ featuresOfOpt d.lulc := hdisj DatasetId.lulc (by decide)
    have hsp : f ∉ featuresOfOpt d.stateParks := hdisj DatasetId.stateParks (by decide)
    show occursInLayers f (cemMapboxLayers t d) ↔ t.roads = true
    rw [occursInLayers_cem]
    simp [hpla, hhab, hurb, hlul, hsp, hf2, hsome]
  | lulc =>
    have hpla : f ∉ featuresOfOpt d.plants := hdisj DatasetId.plants (by decide)
    have hhab : f ∉ featuresOfOpt d.habitat := hdisj DatasetId.habitat (by decide)
    have hurb : f ∉ featuresOfOpt d.urban := hdisj DatasetId.urban (by decide)
    have hroa : f ∉ featuresOfOpt d.roads := hdisj DatasetId.roads (by decide)
    have hsp : f ∉ featuresOfOpt d.stateParks := hdisj DatasetId.stateParks (by decide)
    have hf2 : f ∈ featuresOfOpt d.lulc := hf
    show occursInLayers f (cemMapboxLayers t d) ↔ t.lulc = true
    rw [occursInLayers_cem]
    simp [hpla, hhab, hurb, hroa, hsp, hf2]
  | stateParks =>
    have hpla : f ∉ featuresOfOpt d.plants := hdisj DatasetId.plants (by decide)
    have hhab : f ∉ featuresOfOpt d.habitat := hdisj DatasetId.habitat (by decide)
    have hurb : f ∉ featuresOfOpt d.urban := hdisj DatasetId.urban (by decide)
    have hroa : f ∉ featuresOfOpt d.roads := hdisj DatasetId.roads (by decide)
    have hlul : f ∉ featuresOfOpt d.lulc := hdisj DatasetId.lulc (by decide)
    have hf2 : f ∈ featuresOfOpt d.stateParks := hf
    show occursInLayers f (cemMapboxLayers t d) ↔ t.stateParks = true
    rw [occursInLayers_cem]
    simp [hpla, hhab, hurb, hroa, hlul, hf2]

/-- Witness for `c7_layer_toggle_iff`: with only plants loaded, the plants
feature is in the configuration exactly when the plants toggle is on. -/
theorem c7_layer_toggle_iff_witness :
    includedInConfig DatasetId.plants
      ⟨Geometry.polygon [[⟨1, 2⟩]], [("density", JValue.str "M")]⟩
      ⟨true, false, false, false, false, false, false⟩
      ⟨some ⟨[⟨Geometry.polygon [[⟨1, 2⟩]], [("density", JValue.str "M")]⟩]⟩,
       none, none, none, none, none, none⟩ ∧
    ¬ includedInConfig DatasetId.plants
      ⟨Geometry.polygon [[⟨1, 2⟩]], [("density", JValue.str "M")]⟩
      ⟨false, false, false, false, false, false, false⟩
      ⟨some ⟨[⟨Geometry.polygon [[⟨1, 2⟩]], [("density", JValue.str "M")]⟩]⟩,
       none, none, none, none, none, none⟩ := by
  have hdis : ∀ j : DatasetId, j ≠ DatasetId.plants →
      ⟨Geometry.polygon [[⟨1, 2⟩]], [("density", JValue.str "M")]⟩ ∉
        datasetFeatures j
          ⟨some ⟨[⟨Geometry.polygon [[⟨1, 2⟩]], [("density", JValue.str "M")]⟩]⟩,
           none, none, none, none, none, none⟩ := by
    intro j hj
    cases j <;> simp_all [datasetFeatures, featuresOfOpt]
  constructor
  · exact (c7_layer_toggle_iff ⟨true, false, false, false, false, false, false⟩
      _ DatasetId.plants _ (by simp [datasetFeatures, featuresOfOpt]) hdis).mpr rfl
  · intro h
    have := (c7_layer_toggle_iff ⟨false, false, false, false, false, false, false⟩
      _ DatasetId.plants _ (by simp [datasetFeatures, featuresOfOpt]) hdis).mp h
    exact absurd this (by decide)
